import Mathlib

/-!
Verification development for `move-objects-between-dg.py`, a batch tool that
moves PAN-OS configuration objects between Panorama scopes (device groups and
the shared scope).

The embedding models:
* the XML documents exchanged with the Panorama API as a tree type `XML`,
  together with a serializer (`serialize_entry`, mirroring
  `xml.etree.ElementTree.tostring`) and a parser (`parseTop` /
  `extract_entry_xml`, mirroring `ElementTree.fromstring` + `find(".//entry")`);
* the xpath builders `container_xpath_for_scope` / `entry_xpath_for_scope`;
* the summary extractor `make_summary`;
* the move orchestrator `move_one`, run against an explicit store state plus a
  per-call failure plan standing for transport-level exceptions.
-/

/-! ## Character classes and entity escaping -/

def isSpaceChar (c : Char) : Bool :=
  c == ' ' || c == '\t' || c == '\n' || c == '\r'

def isNameChar (c : Char) : Bool :=
  !(c == ' ' || c == '\t' || c == '\n' || c == '\r' || c == '<' || c == '>' ||
    c == '/' || c == '=' || c == '"' || c.toNat == 39 || c == '&')

/-- Escaping of character data, as in `ElementTree._escape_cdata`. -/
def escTextChar (c : Char) : List Char :=
  if c = '&' then ['&', 'a', 'm', 'p', ';']
  else if c = '<' then ['&', 'l', 't', ';']
  else if c = '>' then ['&', 'g', 't', ';']
  else [c]

def escText : List Char → List Char
  | [] => []
  | c :: cs => escTextChar c ++ escText cs

/-- Escaping of attribute values, as in `ElementTree._escape_attrib`. -/
def escAttrChar (c : Char) : List Char :=
  if c = '&' then ['&', 'a', 'm', 'p', ';']
  else if c = '<' then ['&', 'l', 't', ';']
  else if c = '>' then ['&', 'g', 't', ';']
  else if c = '"' then ['&', 'q', 'u', 'o', 't', ';']
  else [c]

def escAttr : List Char → List Char
  | [] => []
  | c :: cs => escAttrChar c ++ escAttr cs

/-! ## Low-level scanners -/

/-- Longest prefix of name characters, plus the rest of the input. -/
def parseName : List Char → List Char × List Char
  | [] => ([], [])
  | c :: cs =>
    if isNameChar c then
      let p := parseName cs
      (c :: p.1, p.2)
    else ([], c :: cs)

/-- The input after a `&`: expand one of the five predefined XML entities;
anything else is a parse error. Returns the expanded character and the input
after the `;`. -/
def parseEntity : List Char → Option (Char × List Char)
  | 'a' :: 'm' :: 'p' :: ';' :: cs => some ('&', cs)
  | 'l' :: 't' :: ';' :: cs => some ('<', cs)
  | 'g' :: 't' :: ';' :: cs => some ('>', cs)
  | 'q' :: 'u' :: 'o' :: 't' :: ';' :: cs => some ('"', cs)
  | 'a' :: 'p' :: 'o' :: 's' :: ';' :: cs => some (Char.ofNat 39, cs)
  | _ => none

/-- Character data up to the next `<` (or end of input), expanding the five
predefined XML entities; an unrecognized entity reference is a parse error.
The fuel argument only forces termination; one unit per emitted character
suffices, and call sites pass the input length plus one. -/
def parseText : Nat → List Char → Option (List Char × List Char)
  | 0, _ => none
  | _ + 1, [] => some ([], [])
  | fuel + 1, c :: cs =>
    if c = '<' then some ([], c :: cs)
    else if c = '&' then
      match parseEntity cs with
      | none => none
      | some (ch, cs') => (parseText fuel cs').map (fun p => (ch :: p.1, p.2))
    else (parseText fuel cs).map (fun p => (c :: p.1, p.2))

/-- A quoted attribute value, up to the closing quote `q`, expanding entities.
A raw `<` inside an attribute value is a parse error. Fuel as in `parseText`. -/
def parseQuoted : Nat → Char → List Char → Option (List Char × List Char)
  | 0, _, _ => none
  | _ + 1, _, [] => none
  | fuel + 1, q, c :: cs =>
    if c = q then some ([], cs)
    else if c = '<' then none
    else if c = '&' then
      match parseEntity cs with
      | none => none
      | some (ch, cs') => (parseQuoted fuel q cs').map (fun p => (ch :: p.1, p.2))
    else (parseQuoted fuel q cs).map (fun p => (c :: p.1, p.2))

/-! ## XML trees

An `ElementTree` element is a tag, attributes and mixed content; we represent
interleaved character data (ElementTree's `.text` / `.tail`) as explicit text
children. -/

inductive XML where
  | text (s : String)
  | elem (tag : String) (attrs : List (String × String)) (children : List XML)

def isTextNode : XML → Bool
  | .text _ => true
  | .elem _ _ _ => false

/-! ## Serializer, mirroring `ElementTree.tostring(e, encoding="unicode")` -/

def printAttrs : List (String × String) → List Char
  | [] => []
  | (k, v) :: as => (' ' :: k.data) ++ ('=' :: '"' :: escAttr v.data) ++ ('"' :: printAttrs as)

mutual

def printXML : XML → List Char
  | .text s => escText s.data
  | .elem tag attrs children =>
    ('<' :: tag.data) ++ printAttrs attrs ++
      (if children.isEmpty then " />".data
       else ('>' :: printList children) ++ ('<' :: '/' :: tag.data) ++ ['>'])

def printList : List XML → List Char
  | [] => []
  | c :: cs => printXML c ++ printList cs

end

/-! ## Well-formed trees (the image of the parser) -/

def nameOK (s : String) : Bool := !s.data.isEmpty && s.data.all isNameChar

mutual

def wfX : XML → Bool
  | .text s => !s.data.isEmpty
  | .elem tag attrs children =>
    nameOK tag && attrs.all (fun a => nameOK a.1) && wfL children

def wfL : List XML → Bool
  | [] => true
  | [c] => wfX c
  | c :: c2 :: cs => wfX c && !(isTextNode c && isTextNode c2) && wfL (c2 :: cs)

end

/-! ## Fuel bounds for the parser -/

mutual

def fuelX : XML → Nat
  | .text _ => 1
  | .elem _ attrs children => 1 + (attrs.length + 1) + fuelL children

def fuelL : List XML → Nat
  | [] => 1
  | c :: cs => 1 + (if isTextNode c then 0 else fuelX c) + fuelL cs

end

/-! ## Recursive-descent parser, mirroring `ElementTree.fromstring` -/

/-- A closing tag `</name >` whose name must equal `expected`; returns the
input after the `>`. -/
def parseCloseTag (expected : List Char) (r3 : List Char) : Option (List Char) :=
  match r3 with
  | [] => none
  | a :: r4 =>
    if a = '<' then
      match r4 with
      | [] => none
      | b :: r5 =>
        if b = '/' then
          match (parseName r5).2.dropWhile isSpaceChar with
          | [] => none
          | g :: r6 =>
            if g = '>' then (if (parseName r5).1 = expected then some r6 else none) else none
        else none
    else none

mutual

def parseElement : Nat → List Char → Option (XML × List Char)
  | 0, _ => none
  | fuel + 1, input =>
    match input with
    | [] => none
    | c :: rest =>
      if c = '<' then
        if (parseName rest).1 = [] then none
        else
          match parseAttrs fuel (parseName rest).2 with
          | none => none
          | some (attrs, sc, r2) =>
            if sc then some (.elem (String.mk (parseName rest).1) attrs [], r2)
            else
              match parseChildren fuel r2 with
              | none => none
              | some (children, r3) =>
                match parseCloseTag (parseName rest).1 r3 with
                | none => none
                | some r6 => some (.elem (String.mk (parseName rest).1) attrs children, r6)
      else none

def parseAttrs : Nat → List Char → Option (List (String × String) × Bool × List Char)
  | 0, _ => none
  | fuel + 1, input =>
    match input.dropWhile isSpaceChar with
    | [] => none
    | c :: rest =>
      if c = '>' then some ([], false, rest)
      else if c = '/' then
        match rest with
        | [] => none
        | d :: rest' => if d = '>' then some ([], true, rest') else none
      else
        if (parseName (c :: rest)).1 = [] then none
        else
          match (parseName (c :: rest)).2.dropWhile isSpaceChar with
          | [] => none
          | d :: r2 =>
            if d = '=' then
              match r2.dropWhile isSpaceChar with
              | [] => none
              | q :: r3 =>
                if q = '"' || q.toNat = 39 then
                  match parseQuoted (r3.length + 1) q r3 with
                  | none => none
                  | some (v, r4) =>
                    match parseAttrs fuel r4 with
                    | none => none
                    | some (attrs, sc, r5) =>
                      some ((String.mk (parseName (c :: rest)).1, String.mk v) :: attrs, sc, r5)
                else none
            else none

def parseChildren : Nat → List Char → Option (List XML × List Char)
  | 0, _ => none
  | fuel + 1, input =>
    match input with
    | [] => none
    | c :: cs =>
      if c = '<' then
        if cs.head? = some '/' then some ([], c :: cs)
        else
          match parseElement fuel (c :: cs) with
          | none => none
          | some (child, r1) =>
            match parseChildren fuel r1 with
            | none => none
            | some (kids, r2) => some (child :: kids, r2)
      else
        match parseText (cs.length + 2) (c :: cs) with
        | none => none
        | some (t, r1) =>
          match parseChildren fuel r1 with
          | none => none
          | some (kids, r2) => some (.text (String.mk t) :: kids, r2)

end

/-- Parse a whole document: optional leading whitespace, one root element,
optional trailing whitespace (`ElementTree.fromstring`). -/
def parseTop (s : String) : Option XML :=
  match parseElement ((s.data.dropWhile isSpaceChar).length + 1) (s.data.dropWhile isSpaceChar) with
  | some (t, rest) => if rest.all isSpaceChar then some t else none
  | none => none

/-! ## Element-tree queries -/

mutual

/-- Proper element descendants, in document order (ElementTree `.//` search). -/
def descendantsX : XML → List XML
  | .text _ => []
  | .elem _ _ children => descendantsL children

def descendantsL : List XML → List XML
  | [] => []
  | c :: cs => (if isTextNode c then [] else [c]) ++ descendantsX c ++ descendantsL cs

end

def isEntryElem : XML → Bool
  | .elem tag _ _ => tag == "entry"
  | .text _ => false

/-- `extract_entry_xml`: parse an API `<response>` string and return the first
`<entry>` element among the root's descendants (`root.find(".//entry")`), or
`none` if the document fails to parse or holds no entry. -/
def extract_entry_xml (api_xml : String) : Option XML :=
  match parseTop api_xml with
  | none => none
  | some root => (descendantsX root).find? isEntryElem

/-- `serialize_entry`: canonical serialization of the element subtree
(`ET.tostring(elem, encoding="unicode")`). -/
def serialize_entry (e : XML) : String := String.mk (printXML e)

theorem parseTop_sample : parseTop "<response><result><entry name=\"web01\"><ip-netmask>10.0.0.5</ip-netmask></entry></result></response>" =
    some (.elem "response" []
      [.elem "result" []
        [.elem "entry" [("name", "web01")]
          [.elem "ip-netmask" [] [.text "10.0.0.5"]]]]) := rfl

theorem extract_entry_xml_sample : extract_entry_xml "<response><result/></response>" = none := rfl

theorem serialize_entry_sample : serialize_entry (.elem "entry" [("name", "a&b")] [.text "x<y"]) =
    "<entry name=\"a&amp;b\">x&lt;y</entry>" := rfl

/-! ## Element queries used by `make_summary` -/

def tagIs (t : String) : XML → Bool
  | .elem tag _ _ => tag == t
  | .text _ => false

def childElems : XML → List XML
  | .elem _ _ cs => cs.filter (fun c => !isTextNode c)
  | .text _ => []

/-- All elements matching a simple relative path `./a/b/...`, in document
order (ElementTree `findall`). -/
def findAllPath (e : XML) (path : List String) : List XML :=
  path.foldl (fun acc tag => (acc.map (fun t => (childElems t).filter (tagIs tag))).flatten) [e]

/-- ElementTree `.text`: character data before the first child, if any. -/
def firstText : XML → Option String
  | .elem _ _ (.text s :: _) => some s
  | _ => none

/-- ElementTree `findtext(path)` with default `None`: `none` when no element
matches, `""` when the matching element has no leading text. -/
def findtext (e : XML) (path : List String) : Option String :=
  (findAllPath e path).head?.map (fun t => (firstText t).getD "")

/-- Python `a or b` over strings already defaulted to `""` — `None` and `""`
are both falsy, so the chain picks the first nonempty value. -/
def pyOr (a b : String) : String := if a = "" then b else a

def getAttr : XML → String → Option String
  | .elem _ attrs _, k => (attrs.find? (fun p => p.1 == k)).map (fun p => p.2)
  | .text _, _ => none

/-- Python `str.strip()`: drop ASCII whitespace from both ends. -/
def pyStrip (s : String) : String :=
  String.mk (((s.data.dropWhile isSpaceChar).reverse.dropWhile isSpaceChar).reverse)

/-- Python `str.lower()`: lowercase each character. -/
def pyLower (s : String) : String :=
  String.mk (s.data.map Char.toLower)

/-! ## Supported types and xpath construction -/

def SUPPORTED_TYPES : List (String × String) :=
  [("address", "address"), ("address-group", "address-group"),
   ("service", "service"), ("service-group", "service-group")]

def lookupType (t : String) : Option String :=
  (SUPPORTED_TYPES.find? (fun p => p.1 == t)).map (fun p => p.2)

def supportedTypesJoined : String := "address, address-group, service, service-group"

/-- `container_xpath_for_scope`; the `none` case models the `KeyError` raised
by `SUPPORTED_TYPES[obj_type]` when the type is not a key. -/
def container_xpath_for_scope (scope obj_type : String) : Option String :=
  match lookupType obj_type with
  | none => none
  | some node =>
    if pyLower scope = "shared" then some ("/config/shared/" ++ node)
    else some ("/config/devices/entry[@name='localhost.localdomain']/device-group/entry[@name='"
               ++ scope ++ "']/" ++ node)

/-- `entry_xpath_for_scope`: the container xpath extended with the
name-qualified entry segment. -/
def entry_xpath_for_scope (scope obj_type name : String) : Option String :=
  (container_xpath_for_scope scope obj_type).map
    (fun c => c ++ "/entry[@name='" ++ name ++ "']")

/-! ## Summary extractor -/

/-- `make_summary`: short human-friendly synopsis of an entry, per type. -/
def make_summary (obj_type : String) (entry_elem : XML) : String :=
  if obj_type = "address" then
    let ip := pyOr ((findtext entry_elem ["ip-netmask"]).getD "")
      (pyOr ((findtext entry_elem ["ip-range"]).getD "") ((findtext entry_elem ["fqdn"]).getD ""))
    let desc := (findtext entry_elem ["description"]).getD ""
    pyStrip ("address: " ++ ip ++ " | " ++ desc)
  else if obj_type = "address-group" then
    let dynamic := (findtext entry_elem ["dynamic", "filter"]).getD ""
    if dynamic ≠ "" then
      "addr-group(dynamic): filter='" ++ dynamic.take 80 ++ "'"
    else
      "addr-group(static): members=" ++
        toString ((findAllPath entry_elem ["static", "member"]).filter
          (fun m => (firstText m).getD "" != "")).length
  else if obj_type = "service" then
    let proto := pyOr ((findtext entry_elem ["protocol", "tcp", "port"]).getD "")
      ((findtext entry_elem ["protocol", "udp", "port"]).getD "")
    let desc := (findtext entry_elem ["description"]).getD ""
    pyStrip ("service: " ++ proto ++ " | " ++ desc)
  else if obj_type = "service-group" then
    "service-group: members=" ++
      toString ((findAllPath entry_elem ["members", "member"]).filter
        (fun m => (firstText m).getD "" != "")).length
  else ""

def detect_addr_group_reference_risk (obj_type : String) (entry_elem : Option XML) : Bool :=
  if (obj_type != "address-group" && obj_type != "service-group") || entry_elem.isNone then false
  else true

/-! ## The remote store and transport failures -/

/-- Modelled from the spec: the Remote Object Store collaborator (§2, §6) —
`read(path) -> element-or-absent`, `write(containerPath, element) -> ok/error`,
`delete(path) -> ok/error`. The state maps entry xpaths to entry elements;
transport failures are injected separately by a `FailPlan`. -/
structure Store where
  entries : List (String × XML)

def Store.lookup (st : Store) (xpath : String) : Option XML :=
  (st.entries.find? (fun p => p.1 == xpath)).map (fun p => p.2)

def wrapResponse (inner : String) : String :=
  "<response><result>" ++ inner ++ "</result></response>"

/-- `api_get_config` against the store state: the entry at `xpath` rendered
inside a response envelope, or an empty result when absent. -/
def storeGet (st : Store) (xpath : String) : String :=
  wrapResponse (match st.lookup xpath with
    | some e => serialize_entry e
    | none => "")

/-- `api_set_config` at a container xpath: the store parses the element body
and files it under the container, keyed by its `name` attribute. -/
def storeSet (st : Store) (containerXpath elementXml : String) : Store :=
  match parseTop elementXml with
  | some e =>
    let key := containerXpath ++ "/entry[@name='" ++ ((getAttr e "name").getD "") ++ "']"
    ⟨(key, e) :: st.entries.filter (fun p => p.1 != key)⟩
  | none => st

/-- `api_delete_config`: remove the entry at `xpath`. -/
def storeDelete (st : Store) (xpath : String) : Store :=
  ⟨st.entries.filter (fun p => p.1 != xpath)⟩

/-- One transport outcome per remote call site of `move_one`: `some msg`
means that call raises an exception whose string form is `msg`. -/
structure FailPlan where
  srcGet : Option String
  dstGet : Option String
  dstDel : Option String
  dstSet : Option String
  srcDel : Option String

inductive Call where
  | get (xpath : String)
  | set (xpath element : String)
  | del (xpath : String)
deriving DecidableEq

/-- One row of the audit CSV (`logger.writerow`). -/
structure AuditRow where
  timestamp : String
  object_name : String
  object_type : String
  src_scope : String
  dst_scope : String
  status : String
  message : String
  summary : String
  xml : String
deriving DecidableEq

/-- Outcome of one `move_one` invocation: audit rows written, remote calls
attempted (in order), an exception escaping the function if any, and the
resulting store state. -/
structure MoveResult where
  rows : List AuditRow
  calls : List Call
  raised : Option String
  store : Store

/-- `object_exists_in_scope`, transport-success case: get the entry xpath in
`scope` and test whether the response decodes to an entry. (A transport
failure of its `api_get_config` is injected by `FailPlan.dstGet` at the call
site in `move_one`, where no try/except surrounds it.) -/
def object_exists_in_scope (st : Store) (scope obj_type name : String) : Bool :=
  (extract_entry_xml (storeGet st ((entry_xpath_for_scope scope obj_type name).getD ""))).isSome

/-! ## The move orchestrator -/

/-- Steps 3–5 of `move_one`: add to destination, delete from source, log. -/
def move_one_write_delete (now : String) (plan : FailPlan) (st : Store)
    (obj_name obj_type src_scope dst_scope : String) (entry_elem : XML) : MoveResult :=
  let dst_container_xpath := (container_xpath_for_scope dst_scope obj_type).getD ""
  let entry_xml_str := serialize_entry entry_elem
  let src_entry_xpath := (entry_xpath_for_scope src_scope obj_type obj_name).getD ""
  match plan.dstSet with
  | some e =>
    { rows := [⟨now, obj_name, obj_type, src_scope, dst_scope, "error",
        "Failed to add to destination: " ++ e, make_summary obj_type entry_elem, entry_xml_str⟩],
      calls := [.set dst_container_xpath entry_xml_str],
      raised := none, store := st }
  | none =>
    let st1 := storeSet st dst_container_xpath entry_xml_str
    match plan.srcDel with
    | some e =>
      { rows := [⟨now, obj_name, obj_type, src_scope, dst_scope, "copied",
          "Added to dst but failed to delete from src: " ++ e,
          make_summary obj_type entry_elem, entry_xml_str⟩],
        calls := [.set dst_container_xpath entry_xml_str, .del src_entry_xpath],
        raised := none, store := st1 }
    | none =>
      { rows := [⟨now, obj_name, obj_type, src_scope, dst_scope, "moved", "ok",
          make_summary obj_type entry_elem, entry_xml_str⟩],
        calls := [.set dst_container_xpath entry_xml_str, .del src_entry_xpath],
        raised := none, store := storeDelete st1 src_entry_xpath }

/-- `move_one`: relocate one object. `now` stands for the timestamp taken at
entry; `plan` injects transport failures; the audit logger's `writerow` calls
become `rows`; remote calls attempted are collected in `calls`; an exception
escaping the function is recorded in `raised`. -/
def move_one (now : String) (plan : FailPlan) (st : Store)
    (obj_name obj_type0 src_scope dst_scope collision_policy : String) : MoveResult :=
  let obj_type := pyLower (pyStrip obj_type0)
  match lookupType obj_type with
  | none =>
    { rows := [⟨now, obj_name, obj_type, src_scope, dst_scope, "error",
        "Unsupported type '" ++ obj_type ++ "'. Supported: " ++ supportedTypesJoined, "", ""⟩],
      calls := [], raised := none, store := st }
  | some _ =>
    let src_entry_xpath := (entry_xpath_for_scope src_scope obj_type obj_name).getD ""
    match plan.srcGet with
    | some e =>
      { rows := [⟨now, obj_name, obj_type, src_scope, dst_scope, "error",
          "API get failed from src: " ++ e, "", ""⟩],
        calls := [.get src_entry_xpath], raised := none, store := st }
    | none =>
      let src_xml := storeGet st src_entry_xpath
      match extract_entry_xml src_xml with
      | none =>
        { rows := [⟨now, obj_name, obj_type, src_scope, dst_scope, "error",
            "Object not found in source scope '" ++ src_scope ++ "'.", "", src_xml⟩],
          calls := [.get src_entry_xpath], raised := none, store := st }
      | some entry_elem =>
        let dst_entry_xpath := (entry_xpath_for_scope dst_scope obj_type obj_name).getD ""
        match plan.dstGet with
        | some e =>
          { rows := [], calls := [.get src_entry_xpath, .get dst_entry_xpath],
            raised := some e, store := st }
        | none =>
          let callsSoFar := [Call.get src_entry_xpath, Call.get dst_entry_xpath]
          if object_exists_in_scope st dst_scope obj_type obj_name then
            if collision_policy = "skip" then
              { rows := [⟨now, obj_name, obj_type, src_scope, dst_scope, "skipped",
                  "Destination already has object with same name. Skipping.",
                  make_summary obj_type entry_elem, serialize_entry entry_elem⟩],
                calls := callsSoFar, raised := none, store := st }
            else if collision_policy = "overwrite" then
              match plan.dstDel with
              | some e =>
                { rows := [⟨now, obj_name, obj_type, src_scope, dst_scope, "error",
                    "Failed to delete existing dst object before overwrite: " ++ e,
                    make_summary obj_type entry_elem, serialize_entry entry_elem⟩],
                  calls := callsSoFar ++ [.del dst_entry_xpath], raised := none, store := st }
              | none =>
                let r := move_one_write_delete now plan (storeDelete st dst_entry_xpath)
                  obj_name obj_type src_scope dst_scope entry_elem
                { r with calls := callsSoFar ++ [.del dst_entry_xpath] ++ r.calls }
            else
              let r := move_one_write_delete now plan st
                obj_name obj_type src_scope dst_scope entry_elem
              { r with calls := callsSoFar ++ r.calls }
          else
            let r := move_one_write_delete now plan st
              obj_name obj_type src_scope dst_scope entry_elem
            { r with calls := callsSoFar ++ r.calls }

/-! ## Basic lemmas -/

theorem string_eta (s : String) : String.mk s.data = s := by
  cases s
  rfl

theorem xml_mutual_ind (P : XML → Prop) (Q : List XML → Prop)
    (ht : ∀ s, P (.text s))
    (he : ∀ tag attrs cs, Q cs → P (.elem tag attrs cs))
    (hn : Q [])
    (hc : ∀ c cs, P c → Q cs → Q (c :: cs)) :
    (∀ t, P t) ∧ (∀ cs, Q cs) := by
  have key : ∀ n, (∀ t : XML, sizeOf t ≤ n → P t) ∧ (∀ cs : List XML, sizeOf cs ≤ n → Q cs) := by
    intro n
    induction n with
    | zero =>
      constructor
      · intro t h
        exfalso
        cases t <;> simp at h
      · intro cs h
        exfalso
        cases cs <;> simp at h
    | succ n ih =>
      constructor
      · intro t h
        cases t with
        | text s => exact ht s
        | elem tag attrs cs =>
          apply he
          apply ih.2
          have hs : sizeOf (XML.elem tag attrs cs) = 1 + sizeOf tag + sizeOf attrs + sizeOf cs := by
            simp
          omega
      · intro cs h
        cases cs with
        | nil => exact hn
        | cons c cs' =>
          have hs : sizeOf (c :: cs') = 1 + sizeOf c + sizeOf cs' := by simp
          exact hc c cs' (ih.1 c (by omega)) (ih.2 cs' (by omega))
  exact ⟨fun t => (key (sizeOf t)).1 t le_rfl, fun cs => (key (sizeOf cs)).2 cs le_rfl⟩

/-! ## Lemmas about the scanners -/

theorem nameChar_not_space {c : Char} (h : isNameChar c = true) : isSpaceChar c = false := by
  by_contra hx
  rw [Bool.not_eq_false] at hx
  have hd : ((c = ' ' ∨ c = '\t') ∨ c = '\n') ∨ c = '\r' := by simpa [isSpaceChar] using hx
  rcases hd with ((rfl | rfl) | rfl) | rfl <;> (revert h; decide)

theorem nameChar_ne {c : Char} (h : isNameChar c = true) :
    c ≠ '<' ∧ c ≠ '>' ∧ c ≠ '/' ∧ c ≠ '=' ∧ c ≠ '"' ∧ c ≠ '&' := by
  refine ⟨?_, ?_, ?_, ?_, ?_, ?_⟩ <;> (rintro rfl; revert h; decide)

theorem parseName_all : ∀ i : List Char, (parseName i).1.all isNameChar = true := by
  intro i
  induction i with
  | nil => rfl
  | cons c cs ih =>
    by_cases hc : isNameChar c = true
    · simp [parseName, hc, ih]
    · simp [parseName, Bool.eq_false_iff.mpr hc]

theorem parseName_append (nm r : List Char) (h : nm.all isNameChar = true)
    (hr : ∀ c, r.head? = some c → isNameChar c = false) :
    parseName (nm ++ r) = (nm, r) := by
  induction nm with
  | nil =>
    cases r with
    | nil => rfl
    | cons c r' => simp [parseName, hr c rfl]
  | cons c nm' ih =>
    simp only [List.all_cons, Bool.and_eq_true] at h
    simp [parseName, h.1, ih h.2]

theorem parseText_escText (s T : List Char) (hT : T = [] ∨ T.head? = some '<') :
    ∀ f, s.length + 1 ≤ f → parseText f (escText s ++ T) = some (s, T) := by
  induction s with
  | nil =>
    intro f hf
    obtain ⟨f', rfl⟩ : ∃ f', f = f' + 1 := ⟨f - 1, by omega⟩
    rcases hT with rfl | hT
    · simp [escText, parseText]
    · cases T with
      | nil => simp at hT
      | cons c ts =>
        simp at hT
        subst hT
        simp [escText, parseText]
  | cons c s' ih =>
    intro f hf
    obtain ⟨f', rfl⟩ : ∃ f', f = f' + 1 := ⟨f - 1, by omega⟩
    have hf' : s'.length + 1 ≤ f' := by simp at hf; omega
    by_cases h1 : c = '&'
    · subst h1
      simp [escText, escTextChar, parseText, parseEntity, ih _ hf']
    · by_cases h2 : c = '<'
      · subst h2
        simp [escText, escTextChar, parseText, parseEntity, ih _ hf']
      · by_cases h3 : c = '>'
        · subst h3
          simp [escText, escTextChar, parseText, parseEntity, ih _ hf']
        · simp [escText, escTextChar, h1, h2, h3, parseText, ih _ hf']

theorem parseQuoted_escAttr (v T : List Char) :
    ∀ f, v.length + 1 ≤ f → parseQuoted f '"' (escAttr v ++ '"' :: T) = some (v, T) := by
  induction v with
  | nil =>
    intro f hf
    obtain ⟨f', rfl⟩ : ∃ f', f = f' + 1 := ⟨f - 1, by omega⟩
    simp [escAttr, parseQuoted]
  | cons c v' ih =>
    intro f hf
    obtain ⟨f', rfl⟩ : ∃ f', f = f' + 1 := ⟨f - 1, by omega⟩
    have hf' : v'.length + 1 ≤ f' := by simp at hf; omega
    by_cases h1 : c = '&'
    · subst h1
      simp [escAttr, escAttrChar, parseQuoted, parseEntity, ih _ hf']
    · by_cases h2 : c = '<'
      · subst h2
        simp [escAttr, escAttrChar, parseQuoted, parseEntity, ih _ hf']
      · by_cases h3 : c = '>'
        · subst h3
          simp [escAttr, escAttrChar, parseQuoted, parseEntity, ih _ hf']
        · by_cases h4 : c = '"'
          · subst h4
            simp [escAttr, escAttrChar, parseQuoted, parseEntity, ih _ hf']
          · simp [escAttr, escAttrChar, h1, h2, h3, h4, parseQuoted, ih _ hf']

theorem escText_length (l : List Char) : l.length ≤ (escText l).length := by
  induction l with
  | nil => simp [escText]
  | cons c cs ih =>
    have h1 : 1 ≤ (escTextChar c).length := by
      by_cases h1 : c = '&' <;> by_cases h2 : c = '<' <;> by_cases h3 : c = '>' <;>
        simp [escTextChar, h1, h2, h3]
    simp only [escText, List.length_append, List.length_cons]
    omega

theorem escAttr_length (l : List Char) : l.length ≤ (escAttr l).length := by
  induction l with
  | nil => simp [escAttr]
  | cons c cs ih =>
    have h1 : 1 ≤ (escAttrChar c).length := by
      by_cases h1 : c = '&' <;> by_cases h2 : c = '<' <;> by_cases h3 : c = '>' <;>
        by_cases h4 : c = '"' <;> simp [escAttrChar, h1, h2, h3, h4]
    simp only [escAttr, List.length_append, List.length_cons]
    omega

theorem dropWhile_cons_not (c : Char) (l : List Char) (h : isSpaceChar c = false) :
    (c :: l).dropWhile isSpaceChar = c :: l := by
  simp [List.dropWhile_cons, h]

theorem nameOK_data {k : String} (h : nameOK k = true) :
    k.data ≠ [] ∧ k.data.all isNameChar = true := by
  simp only [nameOK, Bool.and_eq_true, Bool.not_eq_true'] at h
  exact ⟨List.isEmpty_eq_false.mp h.1, h.2⟩


theorem parseAttrs_print (attrs : List (String × String)) (sc : Bool) (rest : List Char) :
    ∀ f, attrs.length + 1 ≤ f → attrs.all (fun a => nameOK a.1) = true →
    parseAttrs f (printAttrs attrs ++ (if sc then ' ' :: '/' :: '>' :: rest else '>' :: rest)) =
      some (attrs, sc, rest) := by
  induction attrs with
  | nil =>
    intro f hf _
    obtain ⟨f', rfl⟩ : ∃ f', f = f' + 1 := ⟨f - 1, by omega⟩
    cases sc with
    | true => simp [printAttrs, parseAttrs, isSpaceChar, List.dropWhile_cons]
    | false => simp [printAttrs, parseAttrs, isSpaceChar, List.dropWhile_cons]
  | cons kv as ih =>
    intro f hf hwf
    obtain ⟨k, v⟩ := kv
    obtain ⟨f', rfl⟩ : ∃ f', f = f' + 1 := ⟨f - 1, by omega⟩
    simp only [List.all_cons, Bool.and_eq_true] at hwf
    obtain ⟨hk, has⟩ := hwf
    obtain ⟨hkne, hkall⟩ := nameOK_data hk
    obtain ⟨kc, kt, hkd⟩ : ∃ kc kt, k.data = kc :: kt := by
      cases hkd : k.data with
      | nil => exact absurd hkd hkne
      | cons a b => exact ⟨a, b, rfl⟩
    have hkc : isNameChar kc = true := by
      rw [hkd] at hkall
      simp only [List.all_cons, Bool.and_eq_true] at hkall
      exact hkall.1
    have hkcs := nameChar_ne hkc
    set close : List Char := if sc then ' ' :: '/' :: '>' :: rest else '>' :: rest with hclose
    set Y : List Char := '=' :: '"' :: (escAttr v.data ++ ('"' :: (printAttrs as ++ close)))
      with hY
    have hshape : printAttrs ((k, v) :: as) ++ close = ' ' :: (k.data ++ Y) := by
      simp [printAttrs, hY]
    rw [hshape]
    have hdw : (' ' :: (k.data ++ Y)).dropWhile isSpaceChar = kc :: (kt ++ Y) := by
      rw [hkd]
      have hsp : isSpaceChar ' ' = true := by decide
      rw [List.dropWhile_cons_of_pos hsp]
      exact dropWhile_cons_not kc (kt ++ Y) (nameChar_not_space hkc)
    rw [parseAttrs, hdw]
    have hpn : parseName (kc :: (kt ++ Y)) = (kc :: kt, Y) := by
      have h0 := parseName_append k.data Y hkall (by
        intro c hc
        rw [hY] at hc
        simp at hc
        subst hc
        decide)
      rw [hkd] at h0
      exact h0
    have hq : parseQuoted ((escAttr v.data ++ ('"' :: (printAttrs as ++ close))).length + 1)
        '"' (escAttr v.data ++ ('"' :: (printAttrs as ++ close))) =
        some (v.data, printAttrs as ++ close) := by
      apply parseQuoted_escAttr
      have := escAttr_length v.data
      simp only [List.length_append, List.length_cons]
      omega
    have hih := ih f' (by simp at hf; omega) has
    simp only [hkcs.1, hkcs.2.1, hkcs.2.2.1, if_neg, hpn]
    have hd1 : List.dropWhile isSpaceChar
        ('=' :: '"' :: (escAttr v.data ++ '"' :: (printAttrs as ++ close))) =
        '=' :: '"' :: (escAttr v.data ++ '"' :: (printAttrs as ++ close)) :=
      dropWhile_cons_not _ _ (by decide)
    have hd2 : List.dropWhile isSpaceChar
        ('"' :: (escAttr v.data ++ '"' :: (printAttrs as ++ close))) =
        '"' :: (escAttr v.data ++ '"' :: (printAttrs as ++ close)) :=
      dropWhile_cons_not _ _ (by decide)
    simp [hd1, hd2, hkne]
    rw [parseQuoted_escAttr v.data (printAttrs as ++ close)]
    · show (match parseAttrs f' (printAttrs as ++ close) with
        | none => none
        | some (attrs, sc, r5) =>
          some ((String.mk (kc :: kt), String.mk v.data) :: attrs, sc, r5)) =
        some ((k, v) :: as, sc, rest)
      rw [hih, ← hkd, string_eta, string_eta]
    · have h1 := escAttr_length v.data
      have h2 : (escAttr v.data ++ '"' :: (printAttrs as ++ close)).length =
          (escAttr v.data).length + (printAttrs as ++ close).length + 1 := by
        simp only [List.length_append, List.length_cons]
        omega
      omega

theorem parseCloseTag_print (nm rest : List Char) (hall : nm.all isNameChar = true) :
    parseCloseTag nm ('<' :: '/' :: (nm ++ '>' :: rest)) = some rest := by
  have hpn : parseName (nm ++ '>' :: rest) = (nm, '>' :: rest) :=
    parseName_append nm ('>' :: rest) hall (by intro c hc; simp at hc; subst hc; decide)
  simp [parseCloseTag, hpn, dropWhile_cons_not '>' rest (by decide)]

theorem wfX_elem {tag : String} {attrs : List (String × String)} {children : List XML}
    (h : wfX (.elem tag attrs children) = true) :
    nameOK tag = true ∧ attrs.all (fun a => nameOK a.1) = true ∧ wfL children = true := by
  rw [wfX] at h
  simp only [Bool.and_eq_true] at h
  exact ⟨h.1.1, h.1.2, h.2⟩

theorem wfL_cons_wfX {c : XML} {cs : List XML} (h : wfL (c :: cs) = true) : wfX c = true := by
  cases cs with
  | nil => simpa [wfL] using h
  | cons c2 cs' =>
    rw [wfL] at h
    simp only [Bool.and_eq_true] at h
    exact h.1.1

theorem wfL_cons_tail {c : XML} {cs : List XML} (h : wfL (c :: cs) = true) : wfL cs = true := by
  cases cs with
  | nil => rfl
  | cons c2 cs' =>
    rw [wfL] at h
    simp only [Bool.and_eq_true] at h
    exact h.2

theorem wfL_cons_adj {c c2 : XML} {cs : List XML} (h : wfL (c :: c2 :: cs) = true) :
    (isTextNode c && isTextNode c2) = false := by
  rw [wfL] at h
  simp only [Bool.and_eq_true, Bool.not_eq_true'] at h
  exact h.1.2

theorem fuelX_pos (t : XML) : 1 ≤ fuelX t := by
  cases t with
  | text s => simp [fuelX]
  | elem tag attrs children => rw [fuelX]; omega

theorem fuelL_pos (cs : List XML) : 1 ≤ fuelL cs := by
  cases cs with
  | nil => simp [fuelL]
  | cons c cs' => rw [fuelL]; omega

theorem escText_cons_head (c : Char) (cs : List Char) :
    ∃ d t, escText (c :: cs) = d :: t ∧ d ≠ '<' := by
  by_cases h1 : c = '&'
  · exact ⟨'&', 'a' :: 'm' :: 'p' :: ';' :: escText cs,
      by simp [escText, escTextChar, h1], by decide⟩
  · by_cases h2 : c = '<'
    · exact ⟨'&', 'l' :: 't' :: ';' :: escText cs,
        by simp [escText, escTextChar, h1, h2], by decide⟩
    · by_cases h3 : c = '>'
      · exact ⟨'&', 'g' :: 't' :: ';' :: escText cs,
          by simp [escText, escTextChar, h1, h2, h3], by decide⟩
      · exact ⟨c, escText cs, by simp [escText, escTextChar, h1, h2, h3], h2⟩

theorem printList_head_lt (cs : List XML) (rr : List Char)
    (h : ∀ c2 cs2, cs = c2 :: cs2 → isTextNode c2 = false) :
    (printList cs ++ '<' :: '/' :: rr).head? = some '<' := by
  cases cs with
  | nil => simp [printList]
  | cons c2 cs2 =>
    have hc2 := h c2 cs2 rfl
    cases c2 with
    | text s => simp [isTextNode] at hc2
    | elem tg a k => simp [printList, printXML]

theorem head_printAttrs_tail (attrs : List (String × String)) (tail : List Char)
    (htail : ∀ c, tail.head? = some c → isNameChar c = false) :
    ∀ c, (printAttrs attrs ++ tail).head? = some c → isNameChar c = false := by
  cases attrs with
  | nil => simpa [printAttrs] using htail
  | cons kv as =>
    obtain ⟨k, v⟩ := kv
    intro c hc
    simp [printAttrs] at hc
    subst hc
    decide

theorem printparse : ∀ f : Nat,
    (∀ (tag : String) (attrs : List (String × String)) (children : List XML) (rest : List Char),
      wfX (.elem tag attrs children) = true → fuelX (.elem tag attrs children) ≤ f →
      parseElement f (printXML (.elem tag attrs children) ++ rest) =
        some (.elem tag attrs children, rest)) ∧
    (∀ (cs : List XML) (rr : List Char), wfL cs = true → fuelL cs ≤ f →
      parseChildren f (printList cs ++ '<' :: '/' :: rr) = some (cs, '<' :: '/' :: rr)) := by
  intro f
  induction f with
  | zero =>
    constructor
    · intro tag attrs children rest _ hfuel
      have := fuelX_pos (.elem tag attrs children)
      omega
    · intro cs rr _ hfuel
      have := fuelL_pos cs
      omega
  | succ f ih =>
    constructor
    · intro tag attrs children rest hwf hfuel
      obtain ⟨htag, hattrs, hkids⟩ := wfX_elem hwf
      obtain ⟨htne, htall⟩ := nameOK_data htag
      rw [fuelX] at hfuel
      cases children with
      | nil =>
        have hflnil : fuelL ([] : List XML) = 1 := rfl
        have hpr : printXML (.elem tag attrs []) ++ rest =
            '<' :: (tag.data ++ (printAttrs attrs ++ (' ' :: '/' :: '>' :: rest))) := by
          rw [printXML]
          simp [List.append_assoc]
        have hpn : parseName (tag.data ++ (printAttrs attrs ++ (' ' :: '/' :: '>' :: rest))) =
            (tag.data, printAttrs attrs ++ (' ' :: '/' :: '>' :: rest)) :=
          parseName_append _ _ htall (head_printAttrs_tail attrs _ (by
            intro c hc
            simp at hc
            subst hc
            decide))
        have hpa : parseAttrs f (printAttrs attrs ++ (' ' :: '/' :: '>' :: rest)) =
            some (attrs, true, rest) := by
          have := parseAttrs_print attrs true rest f (by omega) hattrs
          simpa using this
        rw [hpr, parseElement.eq_def]
        simp [hpn, hpa, htne, string_eta]
      | cons ch ct =>
        have hflpos := fuelL_pos (ch :: ct)
        set T2 : List Char := printList (ch :: ct) ++ '<' :: '/' :: (tag.data ++ '>' :: rest)
          with hT2
        have hpr : printXML (.elem tag attrs (ch :: ct)) ++ rest =
            '<' :: (tag.data ++ (printAttrs attrs ++ ('>' :: T2))) := by
          rw [printXML]
          simp [hT2, List.append_assoc]
        have hpn : parseName (tag.data ++ (printAttrs attrs ++ ('>' :: T2))) =
            (tag.data, printAttrs attrs ++ ('>' :: T2)) :=
          parseName_append _ _ htall (head_printAttrs_tail attrs _ (by
            intro c hc
            simp at hc
            subst hc
            decide))
        have hpa : parseAttrs f (printAttrs attrs ++ ('>' :: T2)) =
            some (attrs, false, T2) := by
          have := parseAttrs_print attrs false T2 f (by omega) hattrs
          simpa using this
        have hch : parseChildren f T2 = some (ch :: ct, '<' :: '/' :: (tag.data ++ '>' :: rest)) := by
          rw [hT2]
          exact ih.2 (ch :: ct) (tag.data ++ '>' :: rest) hkids (by omega)
        have hct : parseCloseTag tag.data ('<' :: '/' :: (tag.data ++ '>' :: rest)) = some rest :=
          parseCloseTag_print tag.data rest htall
        rw [hpr, parseElement.eq_def]
        simp [hpn, hpa, hch, hct, htne, string_eta]
    · intro cs rr hwf hfuel
      cases cs with
      | nil =>
        rw [printList, parseChildren.eq_def]
        simp
      | cons child cs' =>
        rw [fuelL] at hfuel
        set T1 : List Char := printList cs' ++ '<' :: '/' :: rr with hT1
        have hch : parseChildren f T1 = some (cs', '<' :: '/' :: rr) := by
          rw [hT1]
          refine ih.2 cs' rr (wfL_cons_tail hwf) ?_
          have := fuelX_pos child
          split at hfuel <;> omega
        cases child with
        | elem tg a k =>
          have hwfc : wfX (.elem tg a k) = true := wfL_cons_wfX hwf
          obtain ⟨htg, _, _⟩ := wfX_elem hwfc
          obtain ⟨htgne, htgall⟩ := nameOK_data htg
          obtain ⟨tc, tt, htgd⟩ : ∃ tc tt, tg.data = tc :: tt := by
            cases h : tg.data with
            | nil => exact absurd h htgne
            | cons a b => exact ⟨a, b, rfl⟩
          have htc : isNameChar tc = true := by
            rw [htgd] at htgall
            simp only [List.all_cons, Bool.and_eq_true] at htgall
            exact htgall.1
          obtain ⟨Z, hZ⟩ : ∃ Z, printXML (.elem tg a k) = '<' :: (tg.data ++ Z) := by
            refine ⟨printAttrs a ++ (if k.isEmpty then " />".data
              else ('>' :: printList k) ++ ('<' :: '/' :: tg.data) ++ ['>']), ?_⟩
            rw [printXML]
            simp [List.append_assoc]
          have hshape : printList (XML.elem tg a k :: cs') ++ '<' :: '/' :: rr =
              '<' :: ((tg.data ++ Z) ++ T1) := by
            rw [printList, hZ, hT1]
            simp [List.append_assoc]
          have hel : parseElement f ('<' :: ((tg.data ++ Z) ++ T1)) =
              some (.elem tg a k, T1) := by
            have hb : ('<' : Char) :: ((tg.data ++ Z) ++ T1) = printXML (.elem tg a k) ++ T1 := by
              rw [hZ]
              simp [List.append_assoc]
            rw [hb]
            refine ih.1 tg a k T1 hwfc ?_
            rw [show isTextNode (XML.elem tg a k) = false from rfl] at hfuel
            simp at hfuel
            omega
          have hcond : (tg.data ++ Z ++ T1).head? = some tc := by
            rw [htgd]
            simp
          have hne : ((tg.data ++ Z ++ T1).head? = some '/') = False := by
            rw [hcond]
            simp [(nameChar_ne htc).2.2.1]
          rw [hshape, parseChildren.eq_def]
          simp only [eq_self_iff_true, ite_true, hne, ite_false, hel, hch]
        | text s =>
          have hwfc : wfX (.text s) = true := wfL_cons_wfX hwf
          have hsne : s.data ≠ [] := by
            rw [wfX] at hwfc
            simpa using hwfc
          obtain ⟨sc0, st, hsd⟩ : ∃ sc0 st, s.data = sc0 :: st := by
            cases h : s.data with
            | nil => exact absurd h hsne
            | cons a b => exact ⟨a, b, rfl⟩
          obtain ⟨d, t2, hesc, hdne⟩ := escText_cons_head sc0 st
          have hescd : escText s.data = d :: t2 := by rw [hsd, hesc]
          have hT1head : T1.head? = some '<' := by
            rw [hT1]
            apply printList_head_lt
            intro c2 cs2 hcs'
            subst hcs'
            have := wfL_cons_adj hwf
            simpa [isTextNode] using this
          have hshape : printList (XML.text s :: cs') ++ '<' :: '/' :: rr =
              d :: (t2 ++ T1) := by
            rw [printList, printXML, hescd, hT1]
            simp [List.append_assoc]
          have htx : parseText (t2.length + T1.length + 2) (d :: (t2 ++ T1)) =
              some (s.data, T1) := by
            have hb : d :: (t2 ++ T1) = escText s.data ++ T1 := by
              rw [hescd]
              simp
            rw [hb]
            apply parseText_escText s.data T1 (Or.inr hT1head)
            have h1 := escText_length s.data
            rw [hescd] at h1
            simp only [List.length_cons, List.length_append] at h1 ⊢
            omega
          rw [hshape, parseChildren.eq_def]
          simp [hdne, htx, hch, string_eta]

theorem printAttrs_length (attrs : List (String × String))
    (h : attrs.all (fun a => nameOK a.1) = true) :
    attrs.length ≤ (printAttrs attrs).length := by
  induction attrs with
  | nil => simp [printAttrs]
  | cons kv as ih =>
    obtain ⟨k, v⟩ := kv
    simp only [List.all_cons, Bool.and_eq_true] at h
    have := ih h.2
    simp only [printAttrs, List.length_append, List.length_cons]
    omega

theorem printXML_text_pos (s : String) (h : s.data ≠ []) :
    1 ≤ (printXML (.text s)).length := by
  rw [printXML]
  have h1 := escText_length s.data
  cases hd : s.data with
  | nil => exact absurd hd h
  | cons a b =>
    rw [hd] at h1
    simp at h1
    omega

theorem fuel_le_print :
    (∀ t, wfX t = true → isTextNode t = false → fuelX t + 1 ≤ (printXML t).length) ∧
    (∀ cs, wfL cs = true → fuelL cs ≤ (printList cs).length + 1) := by
  apply xml_mutual_ind
  · intro s _ habs
    simp [isTextNode] at habs
  · intro tag attrs cs hQ hwf _
    obtain ⟨htag, hattrs, hkids⟩ := wfX_elem hwf
    obtain ⟨htne, _⟩ := nameOK_data htag
    have htlen : 1 ≤ tag.data.length := by
      cases hd : tag.data with
      | nil => exact absurd hd htne
      | cons a b => simp
    have hpa := printAttrs_length attrs hattrs
    rw [fuelX, printXML]
    cases cs with
    | nil =>
      have : fuelL ([] : List XML) = 1 := rfl
      simp only [List.isEmpty_nil, if_pos]
      simp only [List.length_append, List.length_cons, this]
      have : (" />".data).length = 3 := rfl
      omega
    | cons c ct =>
      have hq := hQ hkids
      have : (c :: ct).isEmpty = false := rfl
      rw [this]
      simp only [Bool.false_eq_true, if_false, List.length_append, List.length_cons]
      omega
  · intro _
    simp [fuelL, printList]
  · intro c cs hP hQ hwf
    have hx := wfL_cons_wfX hwf
    have ht := wfL_cons_tail hwf
    have hq := hQ ht
    rw [fuelL]
    simp only [printList, List.length_append]
    cases c with
    | text s =>
      have hsne : s.data ≠ [] := by
        rw [wfX] at hx
        simpa using hx
      have := printXML_text_pos s hsne
      simp only [isTextNode, if_pos]
      omega
    | elem tg a k =>
      have hp := hP hx rfl
      have : isTextNode (XML.elem tg a k) = false := rfl
      rw [this]
      simp only [Bool.false_eq_true, if_false]
      omega

theorem printXML_elem_shape (tg : String) (a : List (String × String)) (k : List XML) :
    ∃ Z, printXML (.elem tg a k) = '<' :: (tg.data ++ Z) := by
  refine ⟨printAttrs a ++ (if k.isEmpty then " />".data
    else ('>' :: printList k) ++ ('<' :: '/' :: tg.data) ++ ['>']), ?_⟩
  rw [printXML]
  simp [List.append_assoc]

theorem parseTop_print (tag : String) (attrs : List (String × String)) (children : List XML)
    (h : wfX (.elem tag attrs children) = true) :
    parseTop (String.mk (printXML (.elem tag attrs children))) =
      some (.elem tag attrs children) := by
  obtain ⟨Z, hZ⟩ := printXML_elem_shape tag attrs children
  have hdw : (printXML (.elem tag attrs children)).dropWhile isSpaceChar =
      printXML (.elem tag attrs children) := by
    rw [hZ]
    exact dropWhile_cons_not _ _ (by decide)
  have hfl : fuelX (.elem tag attrs children) ≤
      (printXML (.elem tag attrs children)).length + 1 := by
    have := fuel_le_print.1 (.elem tag attrs children) h rfl
    omega
  have hpe := (printparse ((printXML (.elem tag attrs children)).length + 1)).1
    tag attrs children [] h hfl
  rw [List.append_nil] at hpe
  rw [parseTop]
  simp only [hdw, hpe]
  simp

theorem parseTop_serialize (tag : String) (a : List (String × String)) (k : List XML)
    (hwf : wfX (.elem tag a k) = true) :
    parseTop (serialize_entry (.elem tag a k)) = some (.elem tag a k) := by
  rw [serialize_entry]
  exact parseTop_print tag a k hwf

theorem extract_entry_xml_wrap (e : XML) (hwf : wfX e = true) (hent : isEntryElem e = true) :
    extract_entry_xml (wrapResponse (serialize_entry e)) = some e := by
  cases e with
  | text s => simp [isEntryElem] at hent
  | elem tag a k =>
    rw [isEntryElem] at hent
    have htag : tag = "entry" := by simpa using hent
    subst htag
    set E : XML := XML.elem "entry" a k with hE
    set respT : XML := XML.elem "response" [] [XML.elem "result" [] [E]] with hrespT
    have hr1 : "response".data = ['r','e','s','p','o','n','s','e'] := rfl
    have hr2 : "result".data = ['r','e','s','u','l','t'] := rfl
    have hdata : (wrapResponse (serialize_entry E)).data =
        ['<','r','e','s','p','o','n','s','e','>','<','r','e','s','u','l','t','>'] ++
          printXML E ++
          ['<','/','r','e','s','u','l','t','>','<','/','r','e','s','p','o','n','s','e','>'] := rfl
    have hprint : printXML respT =
        ['<','r','e','s','p','o','n','s','e','>','<','r','e','s','u','l','t','>'] ++
          printXML E ++
          ['<','/','r','e','s','u','l','t','>','<','/','r','e','s','p','o','n','s','e','>'] := by
      rw [hrespT]
      simp [printXML, printList, printAttrs, hr1, hr2, List.append_assoc]
    have hstr : wrapResponse (serialize_entry E) = String.mk (printXML respT) := by
      rw [← string_eta (wrapResponse (serialize_entry E)), hdata, hprint]
    have hwfT : wfX respT = true := by
      rw [hrespT, wfX]
      simp only [Bool.and_eq_true]
      refine ⟨⟨by decide, by decide⟩, ?_⟩
      rw [wfL, wfX]
      simp only [Bool.and_eq_true]
      refine ⟨⟨by decide, by decide⟩, ?_⟩
      rw [wfL]
      exact hwf
    have hpt : parseTop (wrapResponse (serialize_entry E)) = some respT := by
      rw [hstr, hrespT]
      exact parseTop_print _ _ _ hwfT
    rw [extract_entry_xml, hpt]
    rw [hrespT]
    simp only [descendantsX, descendantsL, isTextNode]
    simp [isEntryElem, List.find?]

theorem parseText_rest : ∀ (f : Nat) (i t r : List Char), parseText f i = some (t, r) →
    r = [] ∨ r.head? = some '<' := by
  intro f
  induction f with
  | zero => intro i t r h; simp [parseText] at h
  | succ f ih =>
    intro i t r h
    cases i with
    | nil =>
      rw [parseText] at h
      simp at h
      exact Or.inl h.2
    | cons c cs =>
      rw [parseText] at h
      by_cases h1 : c = '<'
      · rw [if_pos h1] at h
        simp at h
        right
        rw [← h.2, h1]
        rfl
      · rw [if_neg h1] at h
        by_cases h2 : c = '&'
        · rw [if_pos h2] at h
          cases hpe : parseEntity cs with
          | none => rw [hpe] at h; simp at h
          | some p =>
            obtain ⟨ch, cs'⟩ := p
            rw [hpe] at h
            simp only [Option.map_eq_some'] at h
            obtain ⟨⟨t0, r0⟩, hp, heq⟩ := h
            have h4 : r0 = r := congrArg Prod.snd heq
            exact h4 ▸ ih cs' t0 r0 hp
        · rw [if_neg h2] at h
          simp only [Option.map_eq_some'] at h
          obtain ⟨⟨t0, r0⟩, hp, heq⟩ := h
          have h4 : r0 = r := congrArg Prod.snd heq
          exact h4 ▸ ih cs t0 r0 hp

theorem parseText_ne_nil (f : Nat) (c : Char) (cs t r : List Char)
    (h : parseText f (c :: cs) = some (t, r)) (hc : c ≠ '<') : t ≠ [] := by
  cases f with
  | zero => simp [parseText] at h
  | succ f =>
    rw [parseText] at h
    rw [if_neg hc] at h
    by_cases h2 : c = '&'
    · rw [if_pos h2] at h
      cases hpe : parseEntity cs with
      | none => rw [hpe] at h; simp at h
      | some p =>
        obtain ⟨ch, cs'⟩ := p
        rw [hpe] at h
        simp only [Option.map_eq_some'] at h
        obtain ⟨⟨t0, r0⟩, _, heq⟩ := h
        have : ch :: t0 = t := congrArg Prod.fst heq
        rw [← this]
        simp
    · rw [if_neg h2] at h
      simp only [Option.map_eq_some'] at h
      obtain ⟨⟨t0, r0⟩, _, heq⟩ := h
      have : c :: t0 = t := congrArg Prod.fst heq
      rw [← this]
      simp

theorem parseAttrs_wf : ∀ (f : Nat) (i : List Char) (attrs : List (String × String))
    (sc : Bool) (r : List Char), parseAttrs f i = some (attrs, sc, r) →
    attrs.all (fun a => nameOK a.1) = true := by
  intro f
  induction f with
  | zero => intro i attrs sc r h; simp [parseAttrs] at h
  | succ f ih =>
    intro i attrs sc r h
    rw [parseAttrs] at h
    repeat' split at h
    all_goals (try (exfalso; simp at h; done))
    · simp only [Option.some.injEq, Prod.mk.injEq] at h
      rw [← h.1]
      rfl
    · simp only [Option.some.injEq, Prod.mk.injEq] at h
      rw [← h.1]
      rfl
    · rename_i x0 c cs heqq hgt hsl hpne x1 c1 cs1 heq1 hceq x2 c2 cs2 heq2 hquote x3 v r4 heqq3 x4 attrs2 sc2 r2 heqpa
      simp only [Option.some.injEq, Prod.mk.injEq] at h
      rw [← h.1]
      simp only [List.all_cons, Bool.and_eq_true]
      refine ⟨?_, ih r4 attrs2 sc2 r2 heqpa⟩
      rw [nameOK]
      simp only [Bool.and_eq_true, Bool.not_eq_true']
      refine ⟨?_, parseName_all (c :: cs)⟩
      cases hp1 : (parseName (c :: cs)).1 with
      | nil => exact absurd hp1 hpne
      | cons a b => rfl

def headElemOK : List XML → Bool
  | .text _ :: _ => false
  | _ => true

theorem wfL_intro {c : XML} {cs : List XML} (hx : wfX c = true) (ht : wfL cs = true)
    (hadj : isTextNode c = false ∨ headElemOK cs = true) : wfL (c :: cs) = true := by
  cases cs with
  | nil => simpa [wfL] using hx
  | cons c2 cs2 =>
    rw [wfL]
    simp only [Bool.and_eq_true, Bool.not_eq_true']
    refine ⟨⟨hx, ?_⟩, ht⟩
    rcases hadj with h | h
    · simp [h]
    · cases c2 with
      | text s2 => simp [headElemOK] at h
      | elem tg aa kk => simp [isTextNode]

theorem parseChildren_nil (f : Nat) : parseChildren f [] = none := by
  cases f <;> rfl


theorem parseWF : ∀ f : Nat,
    (∀ i t r, parseElement f i = some (t, r) → wfX t = true ∧ isTextNode t = false) ∧
    (∀ i cs r, parseChildren f i = some (cs, r) → wfL cs = true ∧
      (∀ c0 i0, i = c0 :: i0 → c0 = '<' → headElemOK cs = true)) := by
  intro f
  induction f with
  | zero =>
    constructor
    · intro i t r h
      simp [parseElement] at h
    · intro i cs r h
      simp [parseChildren] at h
  | succ f ih =>
    constructor
    · intro i t r h
      cases i with
      | nil => rw [parseElement] at h; simp at h
      | cons c rest =>
        rw [parseElement] at h
        by_cases hc : c = '<'
        case neg => rw [if_neg hc] at h; simp at h
        rw [if_pos hc] at h
        by_cases hp : (parseName rest).1 = []
        case pos => rw [if_pos hp] at h; simp at h
        rw [if_neg hp] at h
        cases hpa : parseAttrs f (parseName rest).2 with
        | none => rw [hpa] at h; simp at h
        | some trip =>
          obtain ⟨attrs, sc, r2⟩ := trip
          rw [hpa] at h
          have hattrs := parseAttrs_wf f _ _ _ _ hpa
          have hname : nameOK (String.mk (parseName rest).1) = true := by
            rw [nameOK]
            simp only [Bool.and_eq_true, Bool.not_eq_true']
            refine ⟨?_, parseName_all rest⟩
            cases hp1 : (parseName rest).1 with
            | nil => exact absurd hp1 hp
            | cons a b => rfl
          cases sc with
          | true =>
            simp only [if_pos] at h
            simp only [Option.some.injEq, Prod.mk.injEq] at h
            obtain ⟨h1, _⟩ := h
            rw [← h1]
            refine ⟨?_, rfl⟩
            rw [wfX]
            simp only [Bool.and_eq_true]
            exact ⟨⟨hname, hattrs⟩, rfl⟩
          | false =>
            simp only [Bool.false_eq_true, if_false] at h
            cases hpc : parseChildren f r2 with
            | none => rw [hpc] at h; simp at h
            | some p2 =>
              obtain ⟨children, r3⟩ := p2
              rw [hpc] at h
              have h2 : (match parseCloseTag (parseName rest).1 r3 with
                | none => none
                | some r6 =>
                  some (XML.elem (String.mk (parseName rest).1) attrs children, r6)) =
                  some (t, r) := h
              cases hct : parseCloseTag (parseName rest).1 r3 with
              | none => rw [hct] at h2; simp at h2
              | some r6 =>
                rw [hct] at h2
                simp only [Option.some.injEq, Prod.mk.injEq] at h2
                obtain ⟨h1, _⟩ := h2
                rw [← h1]
                refine ⟨?_, rfl⟩
                rw [wfX]
                simp only [Bool.and_eq_true]
                exact ⟨⟨hname, hattrs⟩, (ih.2 _ _ _ hpc).1⟩
    · intro i cs r h
      cases i with
      | nil => rw [parseChildren_nil] at h; simp at h
      | cons c cs0 =>
        rw [parseChildren] at h
        by_cases hc : c = '<'
        · rw [if_pos hc] at h
          by_cases hh : cs0.head? = some '/'
          · rw [if_pos hh] at h
            simp only [Option.some.injEq, Prod.mk.injEq] at h
            obtain ⟨h1, _⟩ := h
            rw [← h1]
            exact ⟨rfl, fun c0 i0 _ _ => rfl⟩
          · rw [if_neg hh] at h
            cases hpe : parseElement f (c :: cs0) with
            | none => rw [hpe] at h; simp at h
            | some p =>
              obtain ⟨child, r1⟩ := p
              rw [hpe] at h
              have h2 : (match parseChildren f r1 with
                | none => none
                | some (kids, r2) => some (child :: kids, r2)) = some (cs, r) := h
              cases hpc : parseChildren f r1 with
              | none => rw [hpc] at h2; simp at h2
              | some p2 =>
                obtain ⟨kids, r2⟩ := p2
                rw [hpc] at h2
                simp only [Option.some.injEq, Prod.mk.injEq] at h2
                obtain ⟨h1, _⟩ := h2
                rw [← h1]
                obtain ⟨hwfc, hnt⟩ := ih.1 _ _ _ hpe
                refine ⟨wfL_intro hwfc (ih.2 _ _ _ hpc).1 (Or.inl hnt), ?_⟩
                intro c0 i0 _ _
                cases child with
                | text s => simp [isTextNode] at hnt
                | elem tg aa kk => rfl
        · rw [if_neg hc] at h
          cases htx : parseText (cs0.length + 2) (c :: cs0) with
          | none => rw [htx] at h; simp at h
          | some p =>
            obtain ⟨t0, r1⟩ := p
            rw [htx] at h
            have h2 : (match parseChildren f r1 with
              | none => none
              | some (kids, r2) => some (XML.text (String.mk t0) :: kids, r2)) =
                some (cs, r) := h
            cases hpc : parseChildren f r1 with
            | none => rw [hpc] at h2; simp at h2
            | some p2 =>
              obtain ⟨kids, r2⟩ := p2
              rw [hpc] at h2
              simp only [Option.some.injEq, Prod.mk.injEq] at h2
              obtain ⟨h1, _⟩ := h2
              rw [← h1]
              have ht0 : t0 ≠ [] := parseText_ne_nil _ _ _ _ _ htx hc
              have hr1 := parseText_rest _ _ _ _ htx
              have hkids := ih.2 _ _ _ hpc
              have hhk : headElemOK kids = true := by
                rcases hr1 with rfl | hr1
                · rw [parseChildren_nil] at hpc
                  simp at hpc
                · cases r1 with
                  | nil => simp at hr1
                  | cons a b =>
                    simp at hr1
                    exact hkids.2 a b rfl hr1
              constructor
              · refine wfL_intro ?_ hkids.1 (Or.inr hhk)
                rw [wfX]
                simpa using ht0
              · intro c0 i0 hi hceq
                rw [List.cons.injEq] at hi
                exact absurd (hi.1.symm ▸ hceq) hc

theorem descendants_wf :
    (∀ t, wfX t = true → ∀ d ∈ descendantsX t, wfX d = true) ∧
    (∀ cs, wfL cs = true → ∀ d ∈ descendantsL cs, wfX d = true) := by
  apply xml_mutual_ind (P := fun t => wfX t = true → ∀ d ∈ descendantsX t, wfX d = true)
    (Q := fun cs => wfL cs = true → ∀ d ∈ descendantsL cs, wfX d = true)
  · intro s _ d hd
    simp [descendantsX] at hd
  · intro tag attrs cs hQ hwf d hd
    rw [descendantsX] at hd
    exact hQ (wfX_elem hwf).2.2 d hd
  · intro _ d hd
    simp [descendantsL] at hd
  · intro c cs hP hQ hwf d hd
    rw [descendantsL] at hd
    simp only [List.mem_append] at hd
    rcases hd with (hd | hd) | hd
    · cases c with
      | text s => simp [isTextNode] at hd
      | elem tg a k =>
        simp [isTextNode] at hd
        rw [hd]
        exact wfL_cons_wfX hwf
    · exact hP (wfL_cons_wfX hwf) d hd
    · exact hQ (wfL_cons_tail hwf) d hd

theorem parseTop_wf (s : String) (root : XML) (h : parseTop s = some root) : wfX root = true := by
  rw [parseTop] at h
  cases hpe : parseElement ((s.data.dropWhile isSpaceChar).length + 1)
      (s.data.dropWhile isSpaceChar) with
  | none => rw [hpe] at h; simp at h
  | some p =>
    obtain ⟨t, rest⟩ := p
    rw [hpe] at h
    have h2 : (if rest.all isSpaceChar = true then some t else none) = some root := h
    by_cases ha : rest.all isSpaceChar
    · rw [if_pos ha] at h2
      simp at h2
      rw [← h2]
      exact ((parseWF _).1 _ _ _ hpe).1
    · rw [if_neg ha] at h2
      simp at h2

theorem extract_entry_xml_wf (r : String) (e : XML) (h : extract_entry_xml r = some e) :
    wfX e = true ∧ isEntryElem e = true := by
  rw [extract_entry_xml] at h
  cases hpt : parseTop r with
  | none => rw [hpt] at h; simp at h
  | some root =>
    rw [hpt] at h
    have hmem := List.mem_of_find?_eq_some h
    have hpred := List.find?_some h
    exact ⟨descendants_wf.1 root (parseTop_wf r root hpt) e hmem, hpred⟩

/-! ## Store lemmas -/

theorem find_key_filter (entries : List (String × XML)) (x k : String) (h : x ≠ k) :
    (entries.filter (fun p => p.1 != k)).find? (fun p => p.1 == x) =
      entries.find? (fun p => p.1 == x) := by
  induction entries with
  | nil => rfl
  | cons e es ih =>
    by_cases he : e.1 = k
    · have h1 : (e.1 != k) = false := by simp [he]
      have h2 : (e.1 == x) = false := by
        simp only [beq_eq_false_iff_ne, ne_eq]
        rw [he]
        exact fun hx => h hx.symm
      rw [List.filter_cons, h1]
      simp only [Bool.false_eq_true, if_false]
      rw [List.find?_cons, h2]
      exact ih
    · have h1 : (e.1 != k) = true := by simp [he]
      rw [List.filter_cons, h1]
      simp only [if_pos]
      rw [List.find?_cons, List.find?_cons]
      cases hx : (e.1 == x) with
      | true => rfl
      | false => exact ih

theorem lookup_insert_self (entries : List (String × XML)) (k : String) (v : XML) :
    Store.lookup ⟨(k, v) :: entries⟩ k = some v := by
  simp [Store.lookup, List.find?_cons]

theorem lookup_insert_other (entries : List (String × XML)) (k x : String) (v : XML)
    (h : x ≠ k) :
    Store.lookup ⟨(k, v) :: entries.filter (fun p => p.1 != k)⟩ x =
      Store.lookup ⟨entries⟩ x := by
  rw [Store.lookup, Store.lookup, List.find?_cons]
  have h2 : ((k, v).1 == x) = false := by
    simp only [beq_eq_false_iff_ne, ne_eq]
    exact fun hx => h hx.symm
  rw [h2]
  rw [find_key_filter entries x k h]

theorem lookup_delete_self (st : Store) (x : String) :
    (storeDelete st x).lookup x = none := by
  rw [storeDelete, Store.lookup]
  have : (st.entries.filter (fun p => p.1 != x)).find? (fun p => p.1 == x) = none := by
    rw [List.find?_eq_none]
    intro p hp
    have := List.of_mem_filter hp
    simp only [bne_iff_ne, ne_eq] at this
    simp only [beq_iff_eq]
    exact this
  rw [this]
  rfl

theorem lookup_delete_other (st : Store) (x y : String) (h : y ≠ x) :
    (storeDelete st x).lookup y = st.lookup y := by
  rw [storeDelete, Store.lookup, Store.lookup]
  rw [find_key_filter st.entries y x h]

theorem storeGet_some {st : Store} {xpath : String} {e : XML} (h : st.lookup xpath = some e)
    (hwf : wfX e = true) (hent : isEntryElem e = true) :
    extract_entry_xml (storeGet st xpath) = some e := by
  rw [storeGet, h]
  show extract_entry_xml (wrapResponse (serialize_entry e)) = some e
  exact extract_entry_xml_wrap e hwf hent

theorem storeGet_none {st : Store} {xpath : String} (h : st.lookup xpath = none) :
    extract_entry_xml (storeGet st xpath) = none := by
  rw [storeGet, h]
  show extract_entry_xml (wrapResponse "") = none
  rfl

theorem storeSet_serialize (st : Store) (containerX : String) (tag : String)
    (a : List (String × String)) (k : List XML) (hwf : wfX (.elem tag a k) = true) :
    storeSet st containerX (serialize_entry (.elem tag a k)) =
      ⟨(containerX ++ "/entry[@name='" ++ ((getAttr (.elem tag a k) "name").getD "") ++ "']",
        .elem tag a k) ::
        st.entries.filter (fun p => p.1 != containerX ++ "/entry[@name='" ++
          ((getAttr (.elem tag a k) "name").getD "") ++ "']")⟩ := by
  rw [storeSet, parseTop_serialize tag a k hwf]


theorem xpath_some (scope ty n node : String) (h : lookupType ty = some node) :
    container_xpath_for_scope scope ty =
      some (if pyLower scope = "shared" then "/config/shared/" ++ node
        else "/config/devices/entry[@name='localhost.localdomain']/device-group/entry[@name='"
          ++ scope ++ "']/" ++ node) ∧
    entry_xpath_for_scope scope ty n =
      some ((if pyLower scope = "shared" then "/config/shared/" ++ node
        else "/config/devices/entry[@name='localhost.localdomain']/device-group/entry[@name='"
          ++ scope ++ "']/" ++ node) ++ "/entry[@name='" ++ n ++ "']") := by
  have hc : container_xpath_for_scope scope ty =
      some (if pyLower scope = "shared" then "/config/shared/" ++ node
        else "/config/devices/entry[@name='localhost.localdomain']/device-group/entry[@name='"
          ++ scope ++ "']/" ++ node) := by
    rw [container_xpath_for_scope, h]
    show (if pyLower scope = "shared" then some ("/config/shared/" ++ node)
      else some ("/config/devices/entry[@name='localhost.localdomain']/device-group/entry[@name='"
        ++ scope ++ "']/" ++ node)) = _
    by_cases hs : pyLower scope = "shared"
    · rw [if_pos hs, if_pos hs]
    · rw [if_neg hs, if_neg hs]
  refine ⟨hc, ?_⟩
  rw [entry_xpath_for_scope, hc]
  rfl

theorem entry_xpath_getD (scope ty n node : String) (h : lookupType ty = some node) :
    (entry_xpath_for_scope scope ty n).getD "" =
      (container_xpath_for_scope scope ty).getD "" ++ "/entry[@name='" ++ n ++ "']" := by
  obtain ⟨hc, he⟩ := xpath_some scope ty n node h
  rw [hc, he]
  rfl

/-! ## Claims -/

/-- C7 counterexample: `container_xpath_for_scope` is not total over every object
type — an unsupported type raises `KeyError` (modelled as `none`), so the pure
functions do fail on some inputs. -/
theorem C7_xpath_unsupported_counterexample :
    container_xpath_for_scope "DG-A" "bogus" = none ∧
    entry_xpath_for_scope "DG-A" "bogus" "web01" = none := by
  decide

/-- C7 (amended): for every scope name, object name, and *supported* object
type, `container_xpath_for_scope` and `entry_xpath_for_scope` never fail: the
container path is `/config/shared/<node>` when the scope matches "shared"
case-insensitively and the device-group path otherwise, and the entry path is
the container path extended with `/entry[@name='<name>']`. -/
theorem C7_xpath_construction (scope obj_type name node : String)
    (h : lookupType obj_type = some node) :
    container_xpath_for_scope scope obj_type =
      some (if pyLower scope = "shared" then "/config/shared/" ++ node
        else "/config/devices/entry[@name='localhost.localdomain']/device-group/entry[@name='"
          ++ scope ++ "']/" ++ node) ∧
    entry_xpath_for_scope scope obj_type name =
      some ((if pyLower scope = "shared" then "/config/shared/" ++ node
        else "/config/devices/entry[@name='localhost.localdomain']/device-group/entry[@name='"
          ++ scope ++ "']/" ++ node) ++ "/entry[@name='" ++ name ++ "']") :=
  xpath_some scope obj_type name node h

theorem C7_xpath_construction_witness :
    container_xpath_for_scope "Shared" "address" = some "/config/shared/address" ∧
    entry_xpath_for_scope "Shared" "address" "web01" =
      some "/config/shared/address/entry[@name='web01']" := by
  have h := C7_xpath_construction "Shared" "address" "web01" "address" (by decide)
  have hs : pyLower "Shared" = "shared" := by decide
  rw [hs] at h
  simpa using h

/-- C6: a `MoveRequest` whose object type (trimmed, lowercased) is not in the
supported set terminates with a single `error` audit row whose message names
the unsupported type; no remote calls are made, the summary and xml fields are
empty, and the store is untouched. -/
theorem C6_unsupported_type (now : String) (plan : FailPlan) (st : Store)
    (obj_name obj_type0 src_scope dst_scope policy : String)
    (h : lookupType (pyLower (pyStrip obj_type0)) = none) :
    move_one now plan st obj_name obj_type0 src_scope dst_scope policy =
      { rows := [⟨now, obj_name, (pyLower (pyStrip obj_type0)), src_scope, dst_scope, "error",
          "Unsupported type '" ++ (pyLower (pyStrip obj_type0)) ++ "'. Supported: " ++
            supportedTypesJoined, "", ""⟩],
        calls := [], raised := none, store := st } := by
  simp only [move_one, h]

theorem C6_unsupported_type_witness :
    move_one "t0" ⟨none, none, none, none, none⟩ ⟨[]⟩ "web01" " Vip " "DG-A" "shared" "skip" =
      { rows := [⟨"t0", "web01", "vip", "DG-A", "shared", "error",
          "Unsupported type 'vip'. Supported: address, address-group, service, service-group",
          "", ""⟩],
        calls := [], raised := none, store := ⟨[]⟩ } :=
  C6_unsupported_type "t0" ⟨none, none, none, none, none⟩ ⟨[]⟩ "web01" " Vip " "DG-A"
    "shared" "skip" (by decide)

/-- C5 counterexample: when the source entry is absent the recorded message is
not the literal "object not found in source scope" — it is capitalized and
names the scope. -/
theorem C5_not_found_counterexample :
    (move_one "t0" ⟨none, none, none, none, none⟩ ⟨[]⟩ "web01" "address" "DG-A" "shared"
      "skip").rows.map AuditRow.message ≠ ["object not found in source scope"] := by
  decide

/-- C5 (amended): if the type is supported, the source read succeeds, and the
response decodes to no entry, the result is a single `error` row with message
`Object not found in source scope '<src>'.`, the raw response retained in the
xml field, an empty summary, no write or delete call (only the one get), and
an unchanged store. -/
theorem C5_not_found (now : String) (plan : FailPlan) (st : Store)
    (obj_name obj_type0 src_scope dst_scope policy node : String)
    (hty : lookupType (pyLower (pyStrip obj_type0)) = some node)
    (hsg : plan.srcGet = none)
    (hnf : extract_entry_xml (storeGet st ((entry_xpath_for_scope src_scope
      (pyLower (pyStrip obj_type0)) obj_name).getD "")) = none) :
    move_one now plan st obj_name obj_type0 src_scope dst_scope policy =
      { rows := [⟨now, obj_name, pyLower (pyStrip obj_type0), src_scope, dst_scope, "error",
          "Object not found in source scope '" ++ src_scope ++ "'.", "",
          storeGet st ((entry_xpath_for_scope src_scope
            (pyLower (pyStrip obj_type0)) obj_name).getD "")⟩],
        calls := [.get ((entry_xpath_for_scope src_scope
          (pyLower (pyStrip obj_type0)) obj_name).getD "")],
        raised := none, store := st } := by
  simp only [move_one, hty, hsg, hnf]

theorem C5_not_found_witness :
    move_one "t0" ⟨none, none, none, none, none⟩ ⟨[]⟩ "web01" "address" "DG-A" "shared" "skip" =
      { rows := [⟨"t0", "web01", "address", "DG-A", "shared", "error",
          "Object not found in source scope 'DG-A'.", "",
          "<response><result></result></response>"⟩],
        calls := [.get ("/config/devices/entry[@name='localhost.localdomain']/device-group/entry[@name='DG-A']/address/entry[@name='web01']")],
        raised := none, store := ⟨[]⟩ } :=
  C5_not_found "t0" ⟨none, none, none, none, none⟩ ⟨[]⟩ "web01" "address" "DG-A" "shared"
    "skip" "address" rfl rfl rfl

/-- C3 counterexample: on a collision with policy `skip` the recorded message
is "Destination already has object with same name. Skipping.", not the
literal "destination already has object with same name". -/
theorem C3_skip_counterexample :
    (move_one "t0" ⟨none, none, none, none, none⟩
      ⟨[("/config/devices/entry[@name='localhost.localdomain']/device-group/entry[@name='DG-A']/address/entry[@name='web01']",
          XML.elem "entry" [("name", "web01")] [XML.elem "ip-netmask" [] [XML.text "10.0.0.5"]]),
        ("/config/shared/address/entry[@name='web01']",
          XML.elem "entry" [("name", "web01")] [])]⟩
      "web01" "address" "DG-A" "shared" "skip").rows.map AuditRow.message ≠
      ["destination already has object with same name"] := by
  decide

/-- C3 (amended): source entry present, destination pre-check finds a
conflicting entry, policy `skip`: the run terminates with one `skipped` row
whose message is "Destination already has object with same name. Skipping.",
summary computed from the source entry, xml holding the source entry's
canonical serialization; only the two gets are issued (no write, no delete)
and the store is unchanged. -/
theorem C3_skip_collision (now : String) (plan : FailPlan) (st : Store)
    (obj_name obj_type0 src_scope dst_scope node : String) (e d : XML)
    (hty : lookupType (pyLower (pyStrip obj_type0)) = some node)
    (hsg : plan.srcGet = none)
    (hdg : plan.dstGet = none)
    (hsrc : st.lookup ((entry_xpath_for_scope src_scope
      (pyLower (pyStrip obj_type0)) obj_name).getD "") = some e)
    (hwfe : wfX e = true) (hente : isEntryElem e = true)
    (hdst : st.lookup ((entry_xpath_for_scope dst_scope
      (pyLower (pyStrip obj_type0)) obj_name).getD "") = some d)
    (hwfd : wfX d = true) (hentd : isEntryElem d = true) :
    move_one now plan st obj_name obj_type0 src_scope dst_scope "skip" =
      { rows := [⟨now, obj_name, pyLower (pyStrip obj_type0), src_scope, dst_scope, "skipped",
          "Destination already has object with same name. Skipping.",
          make_summary (pyLower (pyStrip obj_type0)) e, serialize_entry e⟩],
        calls := [.get ((entry_xpath_for_scope src_scope
            (pyLower (pyStrip obj_type0)) obj_name).getD ""),
          .get ((entry_xpath_for_scope dst_scope
            (pyLower (pyStrip obj_type0)) obj_name).getD "")],
        raised := none, store := st } := by
  simp only [move_one, hty, hsg, hdg, storeGet_some hsrc hwfe hente,
    object_exists_in_scope, storeGet_some hdst hwfd hentd, Option.isSome_some, if_pos]

theorem C3_skip_collision_witness :
    move_one "t0" ⟨none, none, none, none, none⟩
      ⟨[("/config/devices/entry[@name='localhost.localdomain']/device-group/entry[@name='DG-A']/address/entry[@name='web01']",
          XML.elem "entry" [("name", "web01")] [XML.elem "ip-netmask" [] [XML.text "10.0.0.5"]]),
        ("/config/shared/address/entry[@name='web01']",
          XML.elem "entry" [("name", "web01")] [])]⟩
      "web01" "address" "DG-A" "shared" "skip" =
      { rows := [⟨"t0", "web01", "address", "DG-A", "shared", "skipped",
          "Destination already has object with same name. Skipping.",
          "address: 10.0.0.5 |",
          "<entry name=\"web01\"><ip-netmask>10.0.0.5</ip-netmask></entry>"⟩],
        calls := [.get "/config/devices/entry[@name='localhost.localdomain']/device-group/entry[@name='DG-A']/address/entry[@name='web01']",
          .get "/config/shared/address/entry[@name='web01']"],
        raised := none,
        store := ⟨[("/config/devices/entry[@name='localhost.localdomain']/device-group/entry[@name='DG-A']/address/entry[@name='web01']",
          XML.elem "entry" [("name", "web01")] [XML.elem "ip-netmask" [] [XML.text "10.0.0.5"]]),
        ("/config/shared/address/entry[@name='web01']",
          XML.elem "entry" [("name", "web01")] [])]⟩ } :=
  C3_skip_collision "t0" ⟨none, none, none, none, none⟩
    ⟨[("/config/devices/entry[@name='localhost.localdomain']/device-group/entry[@name='DG-A']/address/entry[@name='web01']",
        XML.elem "entry" [("name", "web01")] [XML.elem "ip-netmask" [] [XML.text "10.0.0.5"]]),
      ("/config/shared/address/entry[@name='web01']",
        XML.elem "entry" [("name", "web01")] [])]⟩
    "web01" "address" "DG-A" "shared" "address"
    (XML.elem "entry" [("name", "web01")] [XML.elem "ip-netmask" [] [XML.text "10.0.0.5"]])
    (XML.elem "entry" [("name", "web01")] [])
    rfl rfl rfl rfl rfl rfl rfl rfl rfl

/-- C4: when the destination write fails, the run terminates with one `error`
row whose message describes the failure and whose summary/xml come from the
source entry; no delete of the source entry is attempted, the source entry is
still present afterwards, and the destination holds no entry — the object
exists only at the source. Covers both the no-collision path and the
overwrite path (whose pre-delete targets a distinct destination path). -/
theorem C4_write_failure (now : String) (plan : FailPlan) (st : Store)
    (obj_name obj_type0 src_scope dst_scope policy node m : String) (e : XML)
    (hty : lookupType (pyLower (pyStrip obj_type0)) = some node)
    (hsg : plan.srcGet = none)
    (hdg : plan.dstGet = none)
    (hsrc : st.lookup ((entry_xpath_for_scope src_scope
      (pyLower (pyStrip obj_type0)) obj_name).getD "") = some e)
    (hwfe : wfX e = true) (hente : isEntryElem e = true)
    (hset : plan.dstSet = some m)
    (hcol : st.lookup ((entry_xpath_for_scope dst_scope
        (pyLower (pyStrip obj_type0)) obj_name).getD "") = none ∨
      (policy = "overwrite" ∧ plan.dstDel = none ∧
        ((entry_xpath_for_scope dst_scope (pyLower (pyStrip obj_type0)) obj_name).getD "") ≠
          ((entry_xpath_for_scope src_scope (pyLower (pyStrip obj_type0)) obj_name).getD "") ∧
        ∃ d, st.lookup ((entry_xpath_for_scope dst_scope
          (pyLower (pyStrip obj_type0)) obj_name).getD "") = some d ∧
          wfX d = true ∧ isEntryElem d = true)) :
    (move_one now plan st obj_name obj_type0 src_scope dst_scope policy).rows =
      [⟨now, obj_name, pyLower (pyStrip obj_type0), src_scope, dst_scope, "error",
        "Failed to add to destination: " ++ m,
        make_summary (pyLower (pyStrip obj_type0)) e, serialize_entry e⟩] ∧
    (move_one now plan st obj_name obj_type0 src_scope dst_scope policy).raised = none ∧
    Call.del ((entry_xpath_for_scope src_scope
        (pyLower (pyStrip obj_type0)) obj_name).getD "") ∉
      (move_one now plan st obj_name obj_type0 src_scope dst_scope policy).calls ∧
    (move_one now plan st obj_name obj_type0 src_scope dst_scope policy).store.lookup
      ((entry_xpath_for_scope src_scope (pyLower (pyStrip obj_type0)) obj_name).getD "") =
      some e ∧
    (move_one now plan st obj_name obj_type0 src_scope dst_scope policy).store.lookup
      ((entry_xpath_for_scope dst_scope (pyLower (pyStrip obj_type0)) obj_name).getD "") =
      none := by
  rcases hcol with hA | ⟨hpol, hdd, hne, d, hdst, hwfd, hentd⟩
  · have hrec : move_one now plan st obj_name obj_type0 src_scope dst_scope policy =
        { rows := [⟨now, obj_name, pyLower (pyStrip obj_type0), src_scope, dst_scope, "error",
            "Failed to add to destination: " ++ m,
            make_summary (pyLower (pyStrip obj_type0)) e, serialize_entry e⟩],
          calls := [.get ((entry_xpath_for_scope src_scope
              (pyLower (pyStrip obj_type0)) obj_name).getD ""),
            .get ((entry_xpath_for_scope dst_scope
              (pyLower (pyStrip obj_type0)) obj_name).getD ""),
            .set ((container_xpath_for_scope dst_scope (pyLower (pyStrip obj_type0))).getD "")
              (serialize_entry e)],
          raised := none, store := st } := by
      simp only [move_one, move_one_write_delete, hty, hsg, hdg,
        storeGet_some hsrc hwfe hente, object_exists_in_scope, storeGet_none hA,
        Option.isSome_none, Bool.false_eq_true, if_false, hset]
      simp
    rw [hrec]
    refine ⟨rfl, rfl, by simp, hsrc, hA⟩
  · subst hpol
    have hrec : move_one now plan st obj_name obj_type0 src_scope dst_scope "overwrite" =
        { rows := [⟨now, obj_name, pyLower (pyStrip obj_type0), src_scope, dst_scope, "error",
            "Failed to add to destination: " ++ m,
            make_summary (pyLower (pyStrip obj_type0)) e, serialize_entry e⟩],
          calls := [.get ((entry_xpath_for_scope src_scope
              (pyLower (pyStrip obj_type0)) obj_name).getD ""),
            .get ((entry_xpath_for_scope dst_scope
              (pyLower (pyStrip obj_type0)) obj_name).getD ""),
            .del ((entry_xpath_for_scope dst_scope
              (pyLower (pyStrip obj_type0)) obj_name).getD ""),
            .set ((container_xpath_for_scope dst_scope (pyLower (pyStrip obj_type0))).getD "")
              (serialize_entry e)],
          raised := none,
          store := storeDelete st ((entry_xpath_for_scope dst_scope
            (pyLower (pyStrip obj_type0)) obj_name).getD "") } := by
      simp only [move_one, move_one_write_delete, hty, hsg, hdg,
        storeGet_some hsrc hwfe hente, object_exists_in_scope,
        storeGet_some hdst hwfd hentd, Option.isSome_some, if_pos, hdd, hset]
      simp
    rw [hrec]
    refine ⟨rfl, rfl, ?_, ?_, lookup_delete_self st _⟩
    · simp
      exact fun h => hne h.symm
    · exact (lookup_delete_other st _ _ (fun h => hne h.symm)).trans hsrc

theorem C4_write_failure_witness :
    (move_one "t0" ⟨none, none, none, some "timeout", none⟩
      ⟨[("/config/devices/entry[@name='localhost.localdomain']/device-group/entry[@name='DG-A']/address/entry[@name='web01']",
          XML.elem "entry" [("name", "web01")] [XML.elem "ip-netmask" [] [XML.text "10.0.0.5"]])]⟩
      "web01" "address" "DG-A" "shared" "skip").rows =
      [⟨"t0", "web01", "address", "DG-A", "shared", "error",
        "Failed to add to destination: timeout",
        "address: 10.0.0.5 |",
        "<entry name=\"web01\"><ip-netmask>10.0.0.5</ip-netmask></entry>"⟩] ∧
    (move_one "t0" ⟨none, none, none, some "timeout", none⟩
      ⟨[("/config/devices/entry[@name='localhost.localdomain']/device-group/entry[@name='DG-A']/address/entry[@name='web01']",
          XML.elem "entry" [("name", "web01")] [XML.elem "ip-netmask" [] [XML.text "10.0.0.5"]])]⟩
      "web01" "address" "DG-A" "shared" "skip").raised = none ∧
    Call.del "/config/devices/entry[@name='localhost.localdomain']/device-group/entry[@name='DG-A']/address/entry[@name='web01']" ∉
      (move_one "t0" ⟨none, none, none, some "timeout", none⟩
        ⟨[("/config/devices/entry[@name='localhost.localdomain']/device-group/entry[@name='DG-A']/address/entry[@name='web01']",
            XML.elem "entry" [("name", "web01")] [XML.elem "ip-netmask" [] [XML.text "10.0.0.5"]])]⟩
        "web01" "address" "DG-A" "shared" "skip").calls ∧
    (move_one "t0" ⟨none, none, none, some "timeout", none⟩
      ⟨[("/config/devices/entry[@name='localhost.localdomain']/device-group/entry[@name='DG-A']/address/entry[@name='web01']",
          XML.elem "entry" [("name", "web01")] [XML.elem "ip-netmask" [] [XML.text "10.0.0.5"]])]⟩
      "web01" "address" "DG-A" "shared" "skip").store.lookup
      "/config/devices/entry[@name='localhost.localdomain']/device-group/entry[@name='DG-A']/address/entry[@name='web01']" =
      some (XML.elem "entry" [("name", "web01")] [XML.elem "ip-netmask" [] [XML.text "10.0.0.5"]]) ∧
    (move_one "t0" ⟨none, none, none, some "timeout", none⟩
      ⟨[("/config/devices/entry[@name='localhost.localdomain']/device-group/entry[@name='DG-A']/address/entry[@name='web01']",
          XML.elem "entry" [("name", "web01")] [XML.elem "ip-netmask" [] [XML.text "10.0.0.5"]])]⟩
      "web01" "address" "DG-A" "shared" "skip").store.lookup
      "/config/shared/address/entry[@name='web01']" = none :=
  C4_write_failure "t0" ⟨none, none, none, some "timeout", none⟩
    ⟨[("/config/devices/entry[@name='localhost.localdomain']/device-group/entry[@name='DG-A']/address/entry[@name='web01']",
        XML.elem "entry" [("name", "web01")] [XML.elem "ip-netmask" [] [XML.text "10.0.0.5"]])]⟩
    "web01" "address" "DG-A" "shared" "skip" "address" "timeout"
    (XML.elem "entry" [("name", "web01")] [XML.elem "ip-netmask" [] [XML.text "10.0.0.5"]])
    rfl rfl rfl rfl rfl rfl rfl (Or.inl rfl)

/-- C2: when the destination write succeeds, a succeeding source delete yields
outcome `moved` with message "ok"; a failing source delete yields outcome
`copied` (not `error`) with a message explaining the delete failure, and the
object is then present at both the destination and the source entry xpaths.
Modelled from the spec: the Remote Object Store semantics behind the
`api_*_config` calls. -/
theorem C2_moved_or_copied (now : String) (plan : FailPlan) (st : Store)
    (obj_name obj_type0 src_scope dst_scope policy node : String) (e : XML)
    (hty : lookupType (pyLower (pyStrip obj_type0)) = some node)
    (hsg : plan.srcGet = none)
    (hdg : plan.dstGet = none)
    (hsrc : st.lookup ((entry_xpath_for_scope src_scope
      (pyLower (pyStrip obj_type0)) obj_name).getD "") = some e)
    (hwfe : wfX e = true) (hente : isEntryElem e = true)
    (hname : getAttr e "name" = some obj_name)
    (hcol : st.lookup ((entry_xpath_for_scope dst_scope
        (pyLower (pyStrip obj_type0)) obj_name).getD "") = none ∨
      (policy = "overwrite" ∧ plan.dstDel = none ∧
        ∃ d, st.lookup ((entry_xpath_for_scope dst_scope
          (pyLower (pyStrip obj_type0)) obj_name).getD "") = some d ∧
          wfX d = true ∧ isEntryElem d = true))
    (hset : plan.dstSet = none) :
    (plan.srcDel = none →
      (move_one now plan st obj_name obj_type0 src_scope dst_scope policy).rows =
        [⟨now, obj_name, pyLower (pyStrip obj_type0), src_scope, dst_scope, "moved", "ok",
          make_summary (pyLower (pyStrip obj_type0)) e, serialize_entry e⟩] ∧
      (move_one now plan st obj_name obj_type0 src_scope dst_scope policy).raised = none) ∧
    (∀ msg, plan.srcDel = some msg →
      (move_one now plan st obj_name obj_type0 src_scope dst_scope policy).rows =
        [⟨now, obj_name, pyLower (pyStrip obj_type0), src_scope, dst_scope, "copied",
          "Added to dst but failed to delete from src: " ++ msg,
          make_summary (pyLower (pyStrip obj_type0)) e, serialize_entry e⟩] ∧
      (move_one now plan st obj_name obj_type0 src_scope dst_scope policy).raised = none ∧
      (move_one now plan st obj_name obj_type0 src_scope dst_scope policy).store.lookup
        ((entry_xpath_for_scope dst_scope (pyLower (pyStrip obj_type0)) obj_name).getD "") =
        some e ∧
      (move_one now plan st obj_name obj_type0 src_scope dst_scope policy).store.lookup
        ((entry_xpath_for_scope src_scope (pyLower (pyStrip obj_type0)) obj_name).getD "") =
        some e) := by
  obtain ⟨tag, a, k, rfl⟩ : ∃ tag a k, e = XML.elem tag a k := by
    cases e with
    | text s => simp [isEntryElem] at hente
    | elem tag a k => exact ⟨tag, a, k, rfl⟩
  have hkey : (container_xpath_for_scope dst_scope (pyLower (pyStrip obj_type0))).getD "" ++
      "/entry[@name='" ++ ((getAttr (XML.elem tag a k) "name").getD "") ++ "']" =
      (entry_xpath_for_scope dst_scope (pyLower (pyStrip obj_type0)) obj_name).getD "" := by
    rw [hname, entry_xpath_getD dst_scope (pyLower (pyStrip obj_type0)) obj_name node hty]
    rfl
  refine ⟨?_, ?_⟩
  · intro hsd
    rcases hcol with hA | ⟨hpol, hdd, d, hdst, hwfd, hentd⟩
    · have hrec : move_one now plan st obj_name obj_type0 src_scope dst_scope policy =
          { rows := [⟨now, obj_name, pyLower (pyStrip obj_type0), src_scope, dst_scope,
              "moved", "ok", make_summary (pyLower (pyStrip obj_type0)) (XML.elem tag a k),
              serialize_entry (XML.elem tag a k)⟩],
            calls := [.get ((entry_xpath_for_scope src_scope
                (pyLower (pyStrip obj_type0)) obj_name).getD ""),
              .get ((entry_xpath_for_scope dst_scope
                (pyLower (pyStrip obj_type0)) obj_name).getD ""),
              .set ((container_xpath_for_scope dst_scope (pyLower (pyStrip obj_type0))).getD "")
                (serialize_entry (XML.elem tag a k)),
              .del ((entry_xpath_for_scope src_scope
                (pyLower (pyStrip obj_type0)) obj_name).getD "")],
            raised := none,
            store := storeDelete (storeSet st
              ((container_xpath_for_scope dst_scope (pyLower (pyStrip obj_type0))).getD "")
              (serialize_entry (XML.elem tag a k)))
              ((entry_xpath_for_scope src_scope
                (pyLower (pyStrip obj_type0)) obj_name).getD "") } := by
        simp only [move_one, move_one_write_delete, hty, hsg, hdg,
          storeGet_some hsrc hwfe hente, object_exists_in_scope, storeGet_none hA,
          Option.isSome_none, Bool.false_eq_true, if_false, hset, hsd]
        simp
      rw [hrec]
      exact ⟨rfl, rfl⟩
    · subst hpol
      have hrec : move_one now plan st obj_name obj_type0 src_scope dst_scope "overwrite" =
          { rows := [⟨now, obj_name, pyLower (pyStrip obj_type0), src_scope, dst_scope,
              "moved", "ok", make_summary (pyLower (pyStrip obj_type0)) (XML.elem tag a k),
              serialize_entry (XML.elem tag a k)⟩],
            calls := [.get ((entry_xpath_for_scope src_scope
                (pyLower (pyStrip obj_type0)) obj_name).getD ""),
              .get ((entry_xpath_for_scope dst_scope
                (pyLower (pyStrip obj_type0)) obj_name).getD ""),
              .del ((entry_xpath_for_scope dst_scope
                (pyLower (pyStrip obj_type0)) obj_name).getD ""),
              .set ((container_xpath_for_scope dst_scope (pyLower (pyStrip obj_type0))).getD "")
                (serialize_entry (XML.elem tag a k)),
              .del ((entry_xpath_for_scope src_scope
                (pyLower (pyStrip obj_type0)) obj_name).getD "")],
            raised := none,
            store := storeDelete (storeSet (storeDelete st
                ((entry_xpath_for_scope dst_scope
                  (pyLower (pyStrip obj_type0)) obj_name).getD ""))
              ((container_xpath_for_scope dst_scope (pyLower (pyStrip obj_type0))).getD "")
              (serialize_entry (XML.elem tag a k)))
              ((entry_xpath_for_scope src_scope
                (pyLower (pyStrip obj_type0)) obj_name).getD "") } := by
        simp only [move_one, move_one_write_delete, hty, hsg, hdg,
          storeGet_some hsrc hwfe hente, object_exists_in_scope,
          storeGet_some hdst hwfd hentd, Option.isSome_some, if_pos, hdd, hset, hsd]
        simp
      rw [hrec]
      exact ⟨rfl, rfl⟩
  · intro msg hsd
    rcases hcol with hA | ⟨hpol, hdd, d, hdst, hwfd, hentd⟩
    · have hrec : move_one now plan st obj_name obj_type0 src_scope dst_scope policy =
          { rows := [⟨now, obj_name, pyLower (pyStrip obj_type0), src_scope, dst_scope,
              "copied", "Added to dst but failed to delete from src: " ++ msg,
              make_summary (pyLower (pyStrip obj_type0)) (XML.elem tag a k),
              serialize_entry (XML.elem tag a k)⟩],
            calls := [.get ((entry_xpath_for_scope src_scope
                (pyLower (pyStrip obj_type0)) obj_name).getD ""),
              .get ((entry_xpath_for_scope dst_scope
                (pyLower (pyStrip obj_type0)) obj_name).getD ""),
              .set ((container_xpath_for_scope dst_scope (pyLower (pyStrip obj_type0))).getD "")
                (serialize_entry (XML.elem tag a k)),
              .del ((entry_xpath_for_scope src_scope
                (pyLower (pyStrip obj_type0)) obj_name).getD "")],
            raised := none,
            store := storeSet st
              ((container_xpath_for_scope dst_scope (pyLower (pyStrip obj_type0))).getD "")
              (serialize_entry (XML.elem tag a k)) } := by
        simp only [move_one, move_one_write_delete, hty, hsg, hdg,
          storeGet_some hsrc hwfe hente, object_exists_in_scope, storeGet_none hA,
          Option.isSome_none, Bool.false_eq_true, if_false, hset, hsd]
        simp
      rw [hrec]
      refine ⟨rfl, rfl, ?_, ?_⟩
      · rw [storeSet_serialize st _ tag a k hwfe, hkey]
        exact lookup_insert_self _ _ _
      · rw [storeSet_serialize st _ tag a k hwfe, hkey]
        by_cases hxy : (entry_xpath_for_scope src_scope
            (pyLower (pyStrip obj_type0)) obj_name).getD "" =
            (entry_xpath_for_scope dst_scope (pyLower (pyStrip obj_type0)) obj_name).getD ""
        · rw [hxy]
          exact lookup_insert_self _ _ _
        · rw [lookup_insert_other st.entries _ _ _ hxy]
          exact hsrc
    · subst hpol
      have hrec : move_one now plan st obj_name obj_type0 src_scope dst_scope "overwrite" =
          { rows := [⟨now, obj_name, pyLower (pyStrip obj_type0), src_scope, dst_scope,
              "copied", "Added to dst but failed to delete from src: " ++ msg,
              make_summary (pyLower (pyStrip obj_type0)) (XML.elem tag a k),
              serialize_entry (XML.elem tag a k)⟩],
            calls := [.get ((entry_xpath_for_scope src_scope
                (pyLower (pyStrip obj_type0)) obj_name).getD ""),
              .get ((entry_xpath_for_scope dst_scope
                (pyLower (pyStrip obj_type0)) obj_name).getD ""),
              .del ((entry_xpath_for_scope dst_scope
                (pyLower (pyStrip obj_type0)) obj_name).getD ""),
              .set ((container_xpath_for_scope dst_scope (pyLower (pyStrip obj_type0))).getD "")
                (serialize_entry (XML.elem tag a k)),
              .del ((entry_xpath_for_scope src_scope
                (pyLower (pyStrip obj_type0)) obj_name).getD "")],
            raised := none,
            store := storeSet (storeDelete st
                ((entry_xpath_for_scope dst_scope
                  (pyLower (pyStrip obj_type0)) obj_name).getD ""))
              ((container_xpath_for_scope dst_scope (pyLower (pyStrip obj_type0))).getD "")
              (serialize_entry (XML.elem tag a k)) } := by
        simp only [move_one, move_one_write_delete, hty, hsg, hdg,
          storeGet_some hsrc hwfe hente, object_exists_in_scope,
          storeGet_some hdst hwfd hentd, Option.isSome_some, if_pos, hdd, hset, hsd]
        simp
      rw [hrec]
      refine ⟨rfl, rfl, ?_, ?_⟩
      · rw [storeSet_serialize _ _ tag a k hwfe, hkey]
        exact lookup_insert_self _ _ _
      · rw [storeSet_serialize _ _ tag a k hwfe, hkey]
        by_cases hxy : (entry_xpath_for_scope src_scope
            (pyLower (pyStrip obj_type0)) obj_name).getD "" =
            (entry_xpath_for_scope dst_scope (pyLower (pyStrip obj_type0)) obj_name).getD ""
        · rw [hxy]
          exact lookup_insert_self _ _ _
        · rw [lookup_insert_other (storeDelete st
              ((entry_xpath_for_scope dst_scope
                (pyLower (pyStrip obj_type0)) obj_name).getD "")).entries _ _ _ hxy]
          exact (lookup_delete_other st _ _ hxy).trans hsrc

theorem C2_moved_or_copied_witness :
    (move_one "t0" ⟨none, none, none, none, some "conn reset"⟩
      ⟨[("/config/devices/entry[@name='localhost.localdomain']/device-group/entry[@name='DG-A']/address/entry[@name='web01']",
          XML.elem "entry" [("name", "web01")] [XML.elem "ip-netmask" [] [XML.text "10.0.0.5"]])]⟩
      "web01" "address" "DG-A" "shared" "skip").rows =
      [⟨"t0", "web01", "address", "DG-A", "shared", "copied",
        "Added to dst but failed to delete from src: conn reset",
        "address: 10.0.0.5 |",
        "<entry name=\"web01\"><ip-netmask>10.0.0.5</ip-netmask></entry>"⟩] ∧
    (move_one "t0" ⟨none, none, none, none, some "conn reset"⟩
      ⟨[("/config/devices/entry[@name='localhost.localdomain']/device-group/entry[@name='DG-A']/address/entry[@name='web01']",
          XML.elem "entry" [("name", "web01")] [XML.elem "ip-netmask" [] [XML.text "10.0.0.5"]])]⟩
      "web01" "address" "DG-A" "shared" "skip").raised = none ∧
    (move_one "t0" ⟨none, none, none, none, some "conn reset"⟩
      ⟨[("/config/devices/entry[@name='localhost.localdomain']/device-group/entry[@name='DG-A']/address/entry[@name='web01']",
          XML.elem "entry" [("name", "web01")] [XML.elem "ip-netmask" [] [XML.text "10.0.0.5"]])]⟩
      "web01" "address" "DG-A" "shared" "skip").store.lookup
      "/config/shared/address/entry[@name='web01']" =
      some (XML.elem "entry" [("name", "web01")] [XML.elem "ip-netmask" [] [XML.text "10.0.0.5"]]) ∧
    (move_one "t0" ⟨none, none, none, none, some "conn reset"⟩
      ⟨[("/config/devices/entry[@name='localhost.localdomain']/device-group/entry[@name='DG-A']/address/entry[@name='web01']",
          XML.elem "entry" [("name", "web01")] [XML.elem "ip-netmask" [] [XML.text "10.0.0.5"]])]⟩
      "web01" "address" "DG-A" "shared" "skip").store.lookup
      "/config/devices/entry[@name='localhost.localdomain']/device-group/entry[@name='DG-A']/address/entry[@name='web01']" =
      some (XML.elem "entry" [("name", "web01")] [XML.elem "ip-netmask" [] [XML.text "10.0.0.5"]]) :=
  (C2_moved_or_copied "t0" ⟨none, none, none, none, some "conn reset"⟩
    ⟨[("/config/devices/entry[@name='localhost.localdomain']/device-group/entry[@name='DG-A']/address/entry[@name='web01']",
        XML.elem "entry" [("name", "web01")] [XML.elem "ip-netmask" [] [XML.text "10.0.0.5"]])]⟩
    "web01" "address" "DG-A" "shared" "skip" "address"
    (XML.elem "entry" [("name", "web01")] [XML.elem "ip-netmask" [] [XML.text "10.0.0.5"]])
    rfl rfl rfl rfl rfl rfl rfl (Or.inl rfl) rfl).2 "conn reset" rfl

/-- C8: entry-codec round trip. Any entry obtained by decoding a store
response, when re-encoded, wrapped in a response envelope, and decoded again,
yields the same entry element (same name attribute, same subtree). -/
theorem C8_codec_round_trip (r : String) (e : XML)
    (h : extract_entry_xml r = some e) :
    extract_entry_xml (wrapResponse (serialize_entry e)) = some e := by
  obtain ⟨hwf, hent⟩ := extract_entry_xml_wf r e h
  exact extract_entry_xml_wrap e hwf hent

theorem C8_codec_round_trip_witness :
    extract_entry_xml "<response><result><entry name=\"web01\"><ip-netmask>10.0.0.5</ip-netmask></entry></result></response>" =
      some (XML.elem "entry" [("name", "web01")] [XML.elem "ip-netmask" [] [XML.text "10.0.0.5"]]) ∧
    extract_entry_xml (wrapResponse (serialize_entry
      (XML.elem "entry" [("name", "web01")] [XML.elem "ip-netmask" [] [XML.text "10.0.0.5"]]))) =
      some (XML.elem "entry" [("name", "web01")] [XML.elem "ip-netmask" [] [XML.text "10.0.0.5"]]) :=
  ⟨rfl, C8_codec_round_trip
    "<response><result><entry name=\"web01\"><ip-netmask>10.0.0.5</ip-netmask></entry></result></response>"
    (XML.elem "entry" [("name", "web01")] [XML.elem "ip-netmask" [] [XML.text "10.0.0.5"]]) rfl⟩

/-- C9 counterexample: for the address entry with ip-netmask 10.0.0.5 and no
description, the summary is NOT "address: 10.0.0.5 | " — the f-string is
passed through `.strip()`, which removes the trailing space. -/
theorem C9_summary_counterexample :
    make_summary "address"
      (XML.elem "entry" [("name", "web01")] [XML.elem "ip-netmask" [] [XML.text "10.0.0.5"]]) ≠
      "address: 10.0.0.5 | " := by
  decide

/-- C9 (amended): for every address-type entry, summarize returns
`("address: " ++ ip ++ " | " ++ description).strip()` — ip the first present
of ip-netmask, ip-range, fqdn (else empty), description the description text
(else empty) — so with ip-netmask 10.0.0.5 and no description it returns
"address: 10.0.0.5 |" without the trailing space. -/
theorem C9_address_summary :
    (∀ e : XML, make_summary "address" e =
      pyStrip ("address: " ++
        (pyOr ((findtext e ["ip-netmask"]).getD "")
          (pyOr ((findtext e ["ip-range"]).getD "") ((findtext e ["fqdn"]).getD ""))) ++
        " | " ++ ((findtext e ["description"]).getD ""))) ∧
    make_summary "address"
      (XML.elem "entry" [("name", "web01")] [XML.elem "ip-netmask" [] [XML.text "10.0.0.5"]]) =
      "address: 10.0.0.5 |" :=
  ⟨fun _ => rfl, by decide⟩

/-- C10: when the destination pre-check finds a conflicting entry but the
collision policy is neither "skip" nor "overwrite" (e.g. a misspelled
MOVE_COLLISION value), the move falls through to the destination write: no
skip, no pre-delete of the existing destination entry, and the source entry is
deleted afterwards — the collision is silently ignored. -/
theorem C10_unknown_policy_falls_through (now : String) (plan : FailPlan) (st : Store)
    (obj_name obj_type0 src_scope dst_scope policy node : String) (e d : XML)
    (hty : lookupType (pyLower (pyStrip obj_type0)) = some node)
    (hsg : plan.srcGet = none)
    (hdg : plan.dstGet = none)
    (hsrc : st.lookup ((entry_xpath_for_scope src_scope
      (pyLower (pyStrip obj_type0)) obj_name).getD "") = some e)
    (hwfe : wfX e = true) (hente : isEntryElem e = true)
    (hdst : st.lookup ((entry_xpath_for_scope dst_scope
      (pyLower (pyStrip obj_type0)) obj_name).getD "") = some d)
    (hwfd : wfX d = true) (hentd : isEntryElem d = true)
    (hpol1 : policy ≠ "skip") (hpol2 : policy ≠ "overwrite")
    (hset : plan.dstSet = none) (hsdel : plan.srcDel = none) :
    move_one now plan st obj_name obj_type0 src_scope dst_scope policy =
      { rows := [⟨now, obj_name, pyLower (pyStrip obj_type0), src_scope, dst_scope,
          "moved", "ok", make_summary (pyLower (pyStrip obj_type0)) e, serialize_entry e⟩],
        calls := [.get ((entry_xpath_for_scope src_scope
            (pyLower (pyStrip obj_type0)) obj_name).getD ""),
          .get ((entry_xpath_for_scope dst_scope
            (pyLower (pyStrip obj_type0)) obj_name).getD ""),
          .set ((container_xpath_for_scope dst_scope (pyLower (pyStrip obj_type0))).getD "")
            (serialize_entry e),
          .del ((entry_xpath_for_scope src_scope
            (pyLower (pyStrip obj_type0)) obj_name).getD "")],
        raised := none,
        store := storeDelete (storeSet st
          ((container_xpath_for_scope dst_scope (pyLower (pyStrip obj_type0))).getD "")
          (serialize_entry e))
          ((entry_xpath_for_scope src_scope
            (pyLower (pyStrip obj_type0)) obj_name).getD "") } := by
  simp only [move_one, move_one_write_delete, hty, hsg, hdg,
    storeGet_some hsrc hwfe hente, object_exists_in_scope,
    storeGet_some hdst hwfd hentd, Option.isSome_some, if_pos, hpol1, hpol2,
    ite_false, hset, hsdel]
  simp

theorem C10_unknown_policy_falls_through_witness :
    move_one "t0" ⟨none, none, none, none, none⟩
      ⟨[("/config/devices/entry[@name='localhost.localdomain']/device-group/entry[@name='DG-A']/address/entry[@name='web01']",
          XML.elem "entry" [("name", "web01")] [XML.elem "ip-netmask" [] [XML.text "10.0.0.5"]]),
        ("/config/shared/address/entry[@name='web01']",
          XML.elem "entry" [("name", "web01")] [])]⟩
      "web01" "address" "DG-A" "shared" "skipp" =
      { rows := [⟨"t0", "web01", "address", "DG-A", "shared", "moved", "ok",
          "address: 10.0.0.5 |",
          "<entry name=\"web01\"><ip-netmask>10.0.0.5</ip-netmask></entry>"⟩],
        calls := [.get "/config/devices/entry[@name='localhost.localdomain']/device-group/entry[@name='DG-A']/address/entry[@name='web01']",
          .get "/config/shared/address/entry[@name='web01']",
          .set "/config/shared/address"
            "<entry name=\"web01\"><ip-netmask>10.0.0.5</ip-netmask></entry>",
          .del "/config/devices/entry[@name='localhost.localdomain']/device-group/entry[@name='DG-A']/address/entry[@name='web01']"],
        raised := none,
        store := ⟨[("/config/shared/address/entry[@name='web01']",
          XML.elem "entry" [("name", "web01")] [XML.elem "ip-netmask" [] [XML.text "10.0.0.5"]])]⟩ } :=
  C10_unknown_policy_falls_through "t0" ⟨none, none, none, none, none⟩
    ⟨[("/config/devices/entry[@name='localhost.localdomain']/device-group/entry[@name='DG-A']/address/entry[@name='web01']",
        XML.elem "entry" [("name", "web01")] [XML.elem "ip-netmask" [] [XML.text "10.0.0.5"]]),
      ("/config/shared/address/entry[@name='web01']",
        XML.elem "entry" [("name", "web01")] [])]⟩
    "web01" "address" "DG-A" "shared" "skipp" "address"
    (XML.elem "entry" [("name", "web01")] [XML.elem "ip-netmask" [] [XML.text "10.0.0.5"]])
    (XML.elem "entry" [("name", "web01")] [])
    rfl rfl rfl rfl rfl rfl rfl rfl rfl (by decide) (by decide) rfl rfl

/-- C1 counterexample: the destination existence check is not wrapped in a
try/except, so a transport failure on that `api_get_config` call escapes
`move_one` — the exception propagates and no audit record is written. -/
theorem C1_no_raise_counterexample :
    (move_one "t0" ⟨none, some "boom", none, none, none⟩
      ⟨[("/config/devices/entry[@name='localhost.localdomain']/device-group/entry[@name='DG-A']/address/entry[@name='web01']",
          XML.elem "entry" [("name", "web01")] [XML.elem "ip-netmask" [] [XML.text "10.0.0.5"]])]⟩
      "web01" "address" "DG-A" "shared" "skip").raised = some "boom" ∧
    (move_one "t0" ⟨none, some "boom", none, none, none⟩
      ⟨[("/config/devices/entry[@name='localhost.localdomain']/device-group/entry[@name='DG-A']/address/entry[@name='web01']",
          XML.elem "entry" [("name", "web01")] [XML.elem "ip-netmask" [] [XML.text "10.0.0.5"]])]⟩
      "web01" "address" "DG-A" "shared" "skip").rows = [] := by
  decide

/-- C1 (amended): provided the destination existence check's own remote call
does not fail, `move_one` raises nothing and writes exactly one audit record,
whose outcome is one of moved, copied, skipped, error — whatever happens on
the other four remote calls. -/
theorem C1_terminal_row (now : String) (plan : FailPlan) (st : Store)
    (obj_name obj_type0 src_scope dst_scope policy : String)
    (hdg : plan.dstGet = none) :
    (move_one now plan st obj_name obj_type0 src_scope dst_scope policy).raised = none ∧
    (move_one now plan st obj_name obj_type0 src_scope dst_scope policy).rows.length = 1 ∧
    ∀ r ∈ (move_one now plan st obj_name obj_type0 src_scope dst_scope policy).rows,
      r.status ∈ (["moved", "copied", "skipped", "error"] : List String) := by
  have hwd : ∀ (st2 : Store) (e : XML),
      (move_one_write_delete now plan st2 obj_name (pyLower (pyStrip obj_type0))
        src_scope dst_scope e).raised = none ∧
      (move_one_write_delete now plan st2 obj_name (pyLower (pyStrip obj_type0))
        src_scope dst_scope e).rows.length = 1 ∧
      ∀ r ∈ (move_one_write_delete now plan st2 obj_name (pyLower (pyStrip obj_type0))
          src_scope dst_scope e).rows,
        r.status ∈ (["moved", "copied", "skipped", "error"] : List String) := by
    intro st2 e
    cases hds : plan.dstSet with
    | some m => simp [move_one_write_delete, hds]
    | none =>
      cases hsd : plan.srcDel with
      | some m => simp [move_one_write_delete, hds, hsd]
      | none => simp [move_one_write_delete, hds, hsd]
  cases hlt : lookupType (pyLower (pyStrip obj_type0)) with
  | none => simp [move_one, hlt]
  | some n =>
    cases hsg : plan.srcGet with
    | some m => simp [move_one, hlt, hsg]
    | none =>
      cases hex : extract_entry_xml (storeGet st ((entry_xpath_for_scope src_scope
          (pyLower (pyStrip obj_type0)) obj_name).getD "")) with
      | none => simp [move_one, hlt, hsg, hex]
      | some entry =>
        by_cases hob : object_exists_in_scope st dst_scope (pyLower (pyStrip obj_type0))
            obj_name = true
        · by_cases hp1 : policy = "skip"
          · simp [move_one, hlt, hsg, hex, hdg, hob, hp1]
          · by_cases hp2 : policy = "overwrite"
            · cases hdd : plan.dstDel with
              | some m => simp [move_one, hlt, hsg, hex, hdg, hob, hp1, hp2, hdd]
              | none =>
                have hrec : move_one now plan st obj_name obj_type0 src_scope dst_scope policy =
                    { move_one_write_delete now plan
                        (storeDelete st ((entry_xpath_for_scope dst_scope
                          (pyLower (pyStrip obj_type0)) obj_name).getD ""))
                        obj_name (pyLower (pyStrip obj_type0)) src_scope dst_scope entry with
                      calls := Call.get ((entry_xpath_for_scope src_scope
                          (pyLower (pyStrip obj_type0)) obj_name).getD "") ::
                        Call.get ((entry_xpath_for_scope dst_scope
                          (pyLower (pyStrip obj_type0)) obj_name).getD "") ::
                        Call.del ((entry_xpath_for_scope dst_scope
                          (pyLower (pyStrip obj_type0)) obj_name).getD "") ::
                        (move_one_write_delete now plan
                          (storeDelete st ((entry_xpath_for_scope dst_scope
                            (pyLower (pyStrip obj_type0)) obj_name).getD ""))
                          obj_name (pyLower (pyStrip obj_type0)) src_scope dst_scope
                          entry).calls } := by
                  simp only [move_one, hlt, hsg, hex, hdg, hob, hp1, hp2, hdd]
                  simp
                rw [hrec]
                exact hwd _ entry
            · have hrec : move_one now plan st obj_name obj_type0 src_scope dst_scope policy =
                  { move_one_write_delete now plan st obj_name (pyLower (pyStrip obj_type0))
                      src_scope dst_scope entry with
                    calls := Call.get ((entry_xpath_for_scope src_scope
                        (pyLower (pyStrip obj_type0)) obj_name).getD "") ::
                      Call.get ((entry_xpath_for_scope dst_scope
                        (pyLower (pyStrip obj_type0)) obj_name).getD "") ::
                      (move_one_write_delete now plan st obj_name
                        (pyLower (pyStrip obj_type0)) src_scope dst_scope entry).calls } := by
                simp only [move_one, hlt, hsg, hex, hdg, hob, hp1, hp2]
                simp
              rw [hrec]
              exact hwd _ entry
        · have hrec : move_one now plan st obj_name obj_type0 src_scope dst_scope policy =
              { move_one_write_delete now plan st obj_name (pyLower (pyStrip obj_type0))
                  src_scope dst_scope entry with
                calls := Call.get ((entry_xpath_for_scope src_scope
                    (pyLower (pyStrip obj_type0)) obj_name).getD "") ::
                  Call.get ((entry_xpath_for_scope dst_scope
                    (pyLower (pyStrip obj_type0)) obj_name).getD "") ::
                  (move_one_write_delete now plan st obj_name
                    (pyLower (pyStrip obj_type0)) src_scope dst_scope entry).calls } := by
            simp only [move_one, hlt, hsg, hex, hdg]
            simp [hob]
          rw [hrec]
          exact hwd _ entry

theorem C1_terminal_row_witness :
    (move_one "t0" ⟨none, none, none, none, none⟩ ⟨[]⟩
      "web01" "address" "DG-A" "shared" "skip").raised = none ∧
    (move_one "t0" ⟨none, none, none, none, none⟩ ⟨[]⟩
      "web01" "address" "DG-A" "shared" "skip").rows.length = 1 ∧
    ∀ r ∈ (move_one "t0" ⟨none, none, none, none, none⟩ ⟨[]⟩
        "web01" "address" "DG-A" "shared" "skip").rows,
      r.status ∈ (["moved", "copied", "skipped", "error"] : List String) :=
  C1_terminal_row "t0" ⟨none, none, none, none, none⟩ ⟨[]⟩
    "web01" "address" "DG-A" "shared" "skip" rfl
